import Mathlib

/-!
# Unscented Kalman filter (`src/ukf.cpp`): shallow embedding

The C++ class `UKF` is embedded as a record of its data members; every member
function becomes a function from the record to the record.

* `double` values are elements of an ordered field `α` (exact arithmetic); the
  one explicit narrowing conversion of the source (`float dt`) is the field
  `toFloat` of the environment.
* `cos`, `sin` (libm), the class constants declared in `ukf.h`
  (`inf_variance`, `kappa`, `beta`) and the helpers defined outside `ukf.cpp`
  (`GenerateSigmaPoints`, `GenerateJointSigmaPoints`, `UpdateLidar`,
  `UpdateRadar`) are fields of the environment `Env`.
* `VectorXd(dim_x)` and `MatrixXd(dim_x, dim_x)` allocate storage without
  writing it; the contents of such storage are the fields `fresh_x` and
  `fresh_Sigma` of the environment.  Eigen's comma initializer writes the
  coefficients it is given, in row-major order, and leaves the remaining
  entries as they were (`commaInitVec`, `commaInitMat`; with assertions
  compiled in, Eigen aborts when the list is too short).
-/

/-- The sensor tag of a measurement package. -/
inductive SensorType where
  | LASER
  | RADAR
  deriving DecidableEq, Repr

/-- A measurement package: time stamp in microseconds, sensor tag and the raw
readings (`raw_measurements_[k]` is `raw_measurements_ k`; a LASER package
carries two readings, a RADAR package three). -/
structure MeasurementPackage (α : Type) where
  timestamp_ : Int
  sensor_type_ : SensorType
  raw_measurements_ : Nat → α

/-- A dynamically sized Eigen matrix: `rows()`, `cols()` and the coefficient
accessor `M(r, c)`. -/
structure MatrixXd (α : Type) where
  rows : Nat
  cols : Nat
  coeff : Nat → Nat → α

/-- The only failure kind of the filter (spec section 7). -/
inductive NumericalError where
  | decomposition
  | singular
  deriving DecidableEq, Repr

/-- What a call leaves behind: the object after a normal return, or the error
raised and the object as it was when the error left the call. -/
inductive Outcome (σ : Type) where
  | done (s : σ) : Outcome σ
  | failed (e : NumericalError) (s : σ) : Outcome σ

/-- The object after the call, however the call ended. -/
def Outcome.state {σ : Type} : Outcome σ → σ
  | .done s => s
  | .failed _ s => s

/-- The failure the call reported, if any. -/
def Outcome.error {σ : Type} : Outcome σ → Option NumericalError
  | .done _ => none
  | .failed e _ => some e

/-- Sequencing of two calls: the second runs only after a normal return of
the first. -/
def Outcome.andThen {σ : Type} (o : Outcome σ) (f : σ → Outcome σ) : Outcome σ :=
  match o with
  | .done s => f s
  | .failed e s => .failed e s

/-- The data members of `class UKF` that `ukf.cpp` reads or writes. -/
structure UKF (α : Type) where
  is_initialized_ : Bool
  previous_timestamp_ : Int
  use_laser_ : Bool
  use_radar_ : Bool
  x_ : Fin 5 → α
  Sigma_ : Fin 5 → Fin 5 → α
  Xsig_joint_ : MatrixXd α
  Xsig_pred_ : Fin 5 → Nat → α
  std_a_ : α
  std_yawdd_ : α
  std_laspx_ : α
  std_laspy_ : α
  std_radr_ : α
  std_radphi_ : α
  std_radrd_ : α
  NIS_laser_ : α
  NIS_radar_ : α

/-- What `UpdateLidar` hands back: its return value and the two moments it
receives by reference. -/
structure LidarUpdate (α : Type) where
  NIS : α
  x_ : Fin 5 → α
  Sigma_ : Fin 5 → Fin 5 → α

/-- What `UpdateRadar` hands back: its return value and the two output
arguments `x_temp`, `Sigma_temp`. -/
structure RadarUpdate (α : Type) where
  NIS : α
  x_temp : Fin 5 → α
  Sigma_temp : Fin 5 → Fin 5 → α

/-- Everything `ukf.cpp` takes from outside the file.

Modelled from the spec: `GenerateJointSigmaPoints`, `UpdateLidar` and
`UpdateRadar` are defined outside `ukf.cpp`; following spec sections 4.1, 4.5
and 7 they may end with a `NumericalError` (decomposition of a covariance that
is not positive semidefinite, inversion of a singular innovation covariance),
which `ukf.cpp` never catches.  `GenerateSigmaPoints` is only called by `Init`
on the diagonal matrix of squared standard deviations, for which the spec
names no failure.  `inf_variance`, `kappa` and `beta` are the constants of
`ukf.h`. -/
structure Env (α : Type) where
  cos : α → α
  sin : α → α
  toFloat : α → α
  inf_variance : α
  kappa : α
  beta : α
  fresh_x : Fin 5 → α
  fresh_Sigma : Fin 5 → Fin 5 → α
  GenerateSigmaPoints : (Nat → α) → (Fin 3 → Fin 3 → α) → Fin 3 → Fin 7 → α
  GenerateJointSigmaPoints :
    (Fin 5 → α) → (Fin 5 → Fin 5 → α) → α → α → MatrixXd α → Except NumericalError (MatrixXd α)
  UpdateLidar :
    MeasurementPackage α → (Fin 5 → Nat → α) → (Fin 5 → α) → (Fin 5 → Fin 5 → α) →
      α → α → α → α → Except NumericalError (LidarUpdate α)
  UpdateRadar :
    MeasurementPackage α → (Fin 5 → Nat → α) → (Fin 5 → α) → (Fin 5 → Fin 5 → α) →
      α → α → α → α → α → Except NumericalError (RadarUpdate α)

namespace UKF

variable {α : Type} [LinearOrderedField α]

set_option linter.unusedSectionVars false

/-- Eigen comma initializer on a vector of five entries: the k-th coefficient
of the list goes to entry k; entries the list does not reach keep the
contents of the storage. -/
def commaInitVec (storage : Fin 5 → α) (coeffs : List α) : Fin 5 → α :=
  fun i => (coeffs.get? i.val).getD (storage i)

/-- Eigen comma initializer on a 5x5 matrix: the coefficients fill the matrix
row by row; entries the list does not reach keep the contents of the
storage. -/
def commaInitMat (storage : Fin 5 → Fin 5 → α) (coeffs : List α) : Fin 5 → Fin 5 → α :=
  fun i j => (coeffs.get? (5 * i.val + j.val)).getD (storage i j)

/-- The expression `MatrixXd::Identity(dim_x, dim_x)` scaled by `c`. -/
def scaledIdentity (c : α) : Fin 5 → Fin 5 → α :=
  fun i j => c * (if i = j then 1 else 0)

/-- The constructor `UKF::UKF` (lines 16-73): it assigns the flags, the time
stamp and the noise parameters; the vectors and matrices are allocated only,
so they keep what the raw object `raw` holds. -/
def ctor (raw : UKF α) : UKF α :=
  { raw with
    is_initialized_ := false
    previous_timestamp_ := 0
    use_laser_ := true
    use_radar_ := true
    std_a_ := 0.5
    std_yawdd_ := 0.05
    std_laspx_ := 0.015
    std_laspy_ := 0.015
    std_radr_ := 0.03
    std_radphi_ := 0.003
    std_radrd_ := 0.03 }

/-- The constant `n_y` of the radar branch of `Init` (line 144). -/
def Init.n_y : Int := 3

/-- The local `int lambda = 3 - n_y` of the radar branch of `Init`
(line 145). -/
def Init.lambda : Int := 3 - Init.n_y

/-- The weight `w[i]` of the radar branch of `Init` (line 160): the first
alternative is an integer division, converted to `double` afterwards. -/
def Init.w (i : Nat) : α :=
  if i = 0 then ((Int.tdiv Init.lambda (Init.lambda + Init.n_y) : Int) : α)
  else 0.5 / ((Init.lambda + Init.n_y : Int) : α)

/-- The transformed sigma points `Tsigma` of the radar branch of `Init`
(lines 161-170). -/
def Init.Tsigma (cos sin : α → α) (Ysigma : Fin 3 → Fin 7 → α) : Fin 3 → Fin 7 → α :=
  fun r i =>
    let rho_t := Ysigma 0 i
    let theta_t := Ysigma 1 i
    let rho_dot_t := Ysigma 2 i
    let px_t := rho_t * cos theta_t
    let py_t := rho_t * sin theta_t
    let v_t := |rho_dot_t|
    ![px_t, py_t, v_t] r

/-- The mean `x3` of the transformed points (lines 174-176). -/
def Init.x3 (T : Fin 3 → Fin 7 → α) : Fin 3 → α :=
  fun r => ∑ i : Fin 7, Init.w i.val * T r i

/-- The covariance `Sigma3` of the transformed points (lines 179-181). -/
def Init.Sigma3 (T : Fin 3 → Fin 7 → α) : Fin 3 → Fin 3 → α :=
  fun r c => ∑ i : Fin 7, Init.w i.val * (T r i - Init.x3 T r) * (T c i - Init.x3 T c)

/-- The measurement noise `Qr` handed to `GenerateSigmaPoints`
(lines 148-151). -/
def Init.Qr (s : UKF α) : Fin 3 → Fin 3 → α :=
  fun r c =>
    ![![s.std_radr_ * s.std_radr_, 0, 0],
      ![0, s.std_radphi_ * s.std_radphi_, 0],
      ![0, 0, s.std_radrd_ * s.std_radrd_]] r c

/-- `UKF::Init` (lines 80-199): the prior from the first measurement. -/
def Init (env : Env α) (s : UKF α) (pack : MeasurementPackage α) : UKF α :=
  match pack.sensor_type_ with
  | .LASER =>
    let px := pack.raw_measurements_ 0
    let py := pack.raw_measurements_ 1
    if px * px + py * py = 0 then
      { s with
        x_ := commaInitVec env.fresh_x [0, 0, 0, 0, 0]
        Sigma_ := scaledIdentity env.inf_variance }
    else
      { s with
        x_ := commaInitVec env.fresh_x [px, py, 0, 0, 0]
        Sigma_ := commaInitMat env.fresh_Sigma
          [s.std_laspx_ * s.std_laspx_, 0, 0, 0, 0,
           0.0, s.std_laspy_ * s.std_laspy_, 0, 0, 0,
           0, 0, env.inf_variance, 0, 0,
           0, 0, 0, env.inf_variance, 0,
           0, 0, 0, env.inf_variance] }
  | .RADAR =>
    let rho := pack.raw_measurements_ 0
    if rho = 0 then
      { s with
        x_ := commaInitVec env.fresh_x [0, 0, 0, 0]
        Sigma_ := scaledIdentity env.inf_variance }
    else
      let Ysigma := env.GenerateSigmaPoints pack.raw_measurements_ (Init.Qr s)
      let T := Init.Tsigma env.cos env.sin Ysigma
      { s with
        x_ := fun r =>
          if h : r.val < 3 then Init.x3 T ⟨r.val, h⟩ else 0
        Sigma_ := fun r c =>
          if h : r.val < 3 ∧ c.val < 3 then Init.Sigma3 T ⟨r.val, h.1⟩ ⟨c.val, h.2⟩
          else if r = c then env.inf_variance else 0 }

/-- The local `double lambda = 3 - dim_joint` of `Prediction` (line 255): an
integer subtraction, converted to `double` afterwards. -/
def Prediction.lambda (dim_joint : Nat) : α :=
  (((3 : Int) - (dim_joint : Int) : Int) : α)

/-- The local `alpha_sq` of `Prediction` (line 257). -/
def Prediction.alpha_sq (kappa : α) (dim_joint : Nat) : α :=
  (Prediction.lambda dim_joint + (dim_joint : α)) / ((dim_joint : α) + kappa)

/-- The mean weight `w_m[i]` of `Prediction` (lines 271 and 275). -/
def Prediction.w_m (dim_joint : Nat) (i : Nat) : α :=
  if i = 0 then Prediction.lambda dim_joint / (Prediction.lambda dim_joint + (dim_joint : α))
  else 0.5 / (Prediction.lambda dim_joint + (dim_joint : α))

/-- The covariance weight `w_c[i]` of `Prediction` (lines 272 and 275). -/
def Prediction.w_c (kappa beta : α) (dim_joint : Nat) (i : Nat) : α :=
  if i = 0 then Prediction.w_m dim_joint 0 + (1 - Prediction.alpha_sq kappa dim_joint + beta)
  else 0.5 / (Prediction.lambda dim_joint + (dim_joint : α))

/-- The three assignments of the branch `fabs(omega) < 0.001` (lines 300-302):
rows 0, 1 and 3 of the predicted sigma point. -/
def Prediction.linear_path (cos sin : α → α) (Dt px py v phi a omega_dot : α) : α × α × α :=
  let px_noise := 0.5 * Dt * Dt * cos phi * a
  let py_noise := 0.5 * Dt * Dt * sin phi * a
  let phi_noise := 0.5 * Dt * Dt * omega_dot
  (px + v * cos phi * Dt + px_noise,
   py + v * sin phi * Dt + py_noise,
   phi + phi_noise)

/-- The three assignments of the other branch (lines 306-308): rows 0, 1 and 3
of the predicted sigma point. -/
def Prediction.curved_path (cos sin : α → α) (Dt px py v phi omega a omega_dot : α) :
    α × α × α :=
  let px_noise := 0.5 * Dt * Dt * cos phi * a
  let py_noise := 0.5 * Dt * Dt * sin phi * a
  let phi_noise := 0.5 * Dt * Dt * omega_dot
  (px + v * (sin (phi + omega * Dt) - sin phi) / omega + px_noise,
   py + v * (-cos (phi + omega * Dt) + cos phi) / omega + py_noise,
   phi + omega * Dt + phi_noise)

/-- The body of the loop of `Prediction` for column `i` (lines 278-309): the
joint sigma point `Xsig_joint_.col(i)` run through the transition equations;
the result is the column `Xsig_pred_.col(i)`. -/
def Prediction.column (cos sin : α → α) (Dt : α) (Xsig_joint : MatrixXd α) (i : Nat) :
    Fin 5 → α :=
  let px := Xsig_joint.coeff 0 i
  let py := Xsig_joint.coeff 1 i
  let v := Xsig_joint.coeff 2 i
  let phi := Xsig_joint.coeff 3 i
  let omega := Xsig_joint.coeff 4 i
  let a := Xsig_joint.coeff 5 i
  let omega_dot := Xsig_joint.coeff 6 i
  let v_noise := Dt * a
  let omega_noise := Dt * omega_dot
  let p :=
    if |omega| < 0.001 then Prediction.linear_path cos sin Dt px py v phi a omega_dot
    else Prediction.curved_path cos sin Dt px py v phi omega a omega_dot
  ![p.1, p.2.1, v + v_noise, p.2.2, omega + omega_noise]

/-- The member `Xsig_pred_` after the loop of `Prediction`: the columns below
`Xsig_joint_.cols()` are rewritten, the others keep their contents. -/
def Prediction.Xsig_pred (cos sin : α → α) (Dt : α) (Xsig_joint : MatrixXd α)
    (old : Fin 5 → Nat → α) : Fin 5 → Nat → α :=
  fun r i => if i < Xsig_joint.cols then Prediction.column cos sin Dt Xsig_joint i r else old r i

/-- The local `x_pred` after the loop of `Prediction` (lines 263 and 311). -/
def Prediction.x_pred (Xsig_joint : MatrixXd α) (Xsig_pred : Fin 5 → Nat → α) : Fin 5 → α :=
  fun r => ∑ i ∈ Finset.range Xsig_joint.cols, Prediction.w_m Xsig_joint.rows i * Xsig_pred r i

/-- The vector `Xsig_pred_.col(i) - x_pred`, both factors of the outer
product of line 318. -/
def Prediction.diff (Xsig_pred : Fin 5 → Nat → α) (x_pred : Fin 5 → α) (i : Nat) : Fin 5 → α :=
  fun r => Xsig_pred r i - x_pred r

/-- The local `Sigma_pred` of `Prediction` (lines 316-318). -/
def Prediction.Sigma_pred (kappa beta : α) (Xsig_joint : MatrixXd α)
    (Xsig_pred : Fin 5 → Nat → α) (x_pred : Fin 5 → α) : Fin 5 → Fin 5 → α :=
  fun r c => ∑ i ∈ Finset.range Xsig_joint.cols,
    Prediction.w_c kappa beta Xsig_joint.rows i
      * Prediction.diff Xsig_pred x_pred i r * Prediction.diff Xsig_pred x_pred i c

/-- `UKF::Prediction` (lines 243-325).  When `GenerateJointSigmaPoints` ends
with an error, the error leaves `Prediction` before any member is assigned. -/
def Prediction (env : Env α) (s : UKF α) (Dt : α) : Outcome (UKF α) :=
  match env.GenerateJointSigmaPoints s.x_ s.Sigma_ s.std_a_ s.std_yawdd_ s.Xsig_joint_ with
  | .error e => .failed e s
  | .ok Xsig_joint =>
    let Xsig_pred := Prediction.Xsig_pred env.cos env.sin Dt Xsig_joint s.Xsig_pred_
    let x_pred := Prediction.x_pred Xsig_joint Xsig_pred
    let Sigma_pred := Prediction.Sigma_pred env.kappa env.beta Xsig_joint Xsig_pred x_pred
    .done { s with
      Xsig_joint_ := Xsig_joint
      Xsig_pred_ := Xsig_pred
      x_ := x_pred
      Sigma_ := Sigma_pred }

/-- `UKF::Update` (lines 329-370).  An error of `UpdateLidar` or `UpdateRadar`
leaves `Update` before the assignment that would follow the call. -/
def Update (env : Env α) (s : UKF α) (pack : MeasurementPackage α) : Outcome (UKF α) :=
  match pack.sensor_type_ with
  | .LASER =>
    if s.use_laser_ then
      match env.UpdateLidar pack s.Xsig_pred_ s.x_ s.Sigma_ s.std_laspx_ s.std_laspy_
          env.beta env.kappa with
      | .error e => .failed e s
      | .ok r => .done { s with NIS_laser_ := r.NIS, x_ := r.x_, Sigma_ := r.Sigma_ }
    else .done s
  | .RADAR =>
    if s.use_radar_ then
      match env.UpdateRadar pack s.Xsig_pred_ s.x_ s.Sigma_ s.std_radr_ s.std_radphi_
          s.std_radrd_ env.beta env.kappa with
      | .error e => .failed e s
      | .ok r => .done { s with NIS_radar_ := r.NIS, x_ := r.x_temp, Sigma_ := r.Sigma_temp }
    else .done s

/-- The local `float dt` of `ProcessMeasurement` (line 218): the difference of
the two time stamps divided by `1000000.0` in `double`, then narrowed to
`float`. -/
def ProcessMeasurement.dt (toFloat : α → α) (timestamp previous_timestamp : Int) : α :=
  toFloat (((timestamp - previous_timestamp : Int) : α) / 1000000.0)

/-- `UKF::ProcessMeasurement` (lines 205-236); the two `cout` lines are left
out. -/
def ProcessMeasurement (env : Env α) (s : UKF α) (pack : MeasurementPackage α) :
    Outcome (UKF α) :=
  if !s.is_initialized_ then
    .done { Init env s pack with
      previous_timestamp_ := pack.timestamp_
      is_initialized_ := true }
  else
    let dt := ProcessMeasurement.dt env.toFloat pack.timestamp_ s.previous_timestamp_
    let s1 := { s with previous_timestamp_ := pack.timestamp_ }
    (Prediction env s1 dt).andThen (fun s2 => Update env s2 pack)

/-- The vector of raw readings with the listed entries. -/
def readings (l : List α) : Nat → α :=
  fun k => l.getD k 0

/-! ## The narrowing conversion and example helpers -/

/-- Rounding to the nearest integer, ties to the even one. -/
def roundTiesEven [FloorRing α] (y : α) : Int :=
  if y - (⌊y⌋ : α) < 1 / 2 then ⌊y⌋
  else if 1 / 2 < y - (⌊y⌋ : α) then ⌊y⌋ + 1
  else if ⌊y⌋ % 2 = 0 then ⌊y⌋ else ⌊y⌋ + 1

/-- The conversion from `double` to `float` on the normal range of binary32:
the nearest number with a 24-bit significand, ties to even.  Every quotient
of a difference of two 64-bit time stamps by `1000000.0` is zero or lies in
that range. -/
def float32 [FloorRing α] (x : α) : α :=
  if x = 0 then 0
  else ((roundTiesEven (x / 2 ^ (Int.log 2 |x| - 23)) : Int) : α) * 2 ^ (Int.log 2 |x| - 23)

/-- An object before its constructor has run. -/
def rawObject : UKF α where
  is_initialized_ := true
  previous_timestamp_ := 0
  use_laser_ := false
  use_radar_ := false
  x_ := fun _ => 7
  Sigma_ := fun _ _ => 7
  Xsig_joint_ := ⟨0, 0, fun _ _ => 7⟩
  Xsig_pred_ := fun _ _ => 7
  std_a_ := 7
  std_yawdd_ := 7
  std_laspx_ := 7
  std_laspy_ := 7
  std_radr_ := 7
  std_radphi_ := 7
  std_radrd_ := 7
  NIS_laser_ := 7
  NIS_radar_ := 7

/-- Example output of `GenerateJointSigmaPoints`: the 7 x 15 sigma points of
an axis-aligned joint distribution.  Column 0 is the mean `x` padded with two
zeros, column `j + 1` adds `spread j` to coordinate `j` and column `j + 8`
subtracts it. -/
def exampleJoint (x : Fin 5 → α) (spread : Nat → α) : MatrixXd α where
  rows := 7
  cols := 15
  coeff := fun r c =>
    (if h : r < 5 then x ⟨r, h⟩ else 0)
      + (if c = r + 1 then spread r else if c = r + 8 then -spread r else 0)

/-- Example environment: the helpers of an axis-aligned filter.  The joint
sigma points are `exampleJoint`; the update helpers leave the moments as they
are, and `UpdateLidar` ends with `singular` when `lidar_fails` is set. -/
def exampleEnv (cos sin toFloat : α → α) (spread : Nat → α) (lidar_fails : Bool) : Env α where
  cos := cos
  sin := sin
  toFloat := toFloat
  inf_variance := 1000000
  kappa := 0
  beta := 2
  fresh_x := fun _ => 7
  fresh_Sigma := fun _ _ => 7
  GenerateSigmaPoints := fun y _ r _ => y r.val
  GenerateJointSigmaPoints := fun x _ _ _ _ => .ok (exampleJoint x spread)
  UpdateLidar := fun _ _ x S _ _ _ _ =>
    if lidar_fails then .error .singular else .ok ⟨0, x, S⟩
  UpdateRadar := fun _ _ x S _ _ _ _ _ => .ok ⟨0, x, S⟩

/-- Example filter: constructed, with the laser switched off when `laser_on`
is false, and initialised by the LASER measurement `[1.0, 1.0]` at time 0. -/
def exampleFilter (env : Env α) (laser_on : Bool) : UKF α :=
  (ProcessMeasurement env { ctor rawObject with use_laser_ := laser_on }
    ⟨0, .LASER, readings [1.0, 1.0]⟩).state

/-- Example measurement: LASER `[1.2, 1.0]`, 0.1 s after time 0. -/
def examplePack : MeasurementPackage α :=
  ⟨100000, .LASER, readings [1.2, 1.0]⟩

/-! ## Evaluation in binary64

The definitions above read every `double` operation as exact.  The
definitions below are the same expressions with the result of every `double`
operation rounded by `fl`; with `fl = float64` this is the evaluation in
binary64 (round to nearest, ties to even, no fused operations), and with
`fl = id` it is the exact reading. -/

/-- The conversion of a real number to `double` on the normal range of
binary64: the nearest number with a 53-bit significand, ties to even. -/
def float64 [FloorRing α] (x : α) : α :=
  if x = 0 then 0
  else ((roundTiesEven (x / 2 ^ (Int.log 2 |x| - 52)) : Int) : α) * 2 ^ (Int.log 2 |x| - 52)

/-- The loop `acc += f(i)` for `i = 0, ..., n - 1` on an accumulator that
starts at 0, every addition rounded. -/
def accumulate (fl : α → α) (f : Nat → α) : Nat → α
  | 0 => 0
  | n + 1 => fl (accumulate fl f n + f n)

/-- The weight `w[i]` of line 160 as the `double` the code stores. -/
def Init.w_rounded (fl : α → α) (i : Nat) : α :=
  if i = 0 then ((Int.tdiv Init.lambda (Init.lambda + Init.n_y) : Int) : α)
  else fl (0.5 / ((Init.lambda + Init.n_y : Int) : α))

/-- The weight `w_m[i]` of lines 271 and 275 as the `double` the code
stores. -/
def Prediction.w_m_rounded (fl : α → α) (dim_joint : Nat) (i : Nat) : α :=
  if i = 0 then
    fl (Prediction.lambda dim_joint / fl (Prediction.lambda dim_joint + (dim_joint : α)))
  else fl (0.5 / fl (Prediction.lambda dim_joint + (dim_joint : α)))

/-- The local `alpha_sq` of line 257 as the `double` the code stores. -/
def Prediction.alpha_sq_rounded (fl : α → α) (kappa : α) (dim_joint : Nat) : α :=
  fl (fl (Prediction.lambda dim_joint + (dim_joint : α)) / fl ((dim_joint : α) + kappa))

/-- The weight `w_c[i]` of lines 272 and 275 as the `double` the code
stores. -/
def Prediction.w_c_rounded (fl : α → α) (kappa beta : α) (dim_joint : Nat) (i : Nat) : α :=
  if i = 0 then
    fl (Prediction.w_m_rounded fl dim_joint 0
      + fl (fl (1 - Prediction.alpha_sq_rounded fl kappa dim_joint) + beta))
  else fl (0.5 / fl (Prediction.lambda dim_joint + (dim_joint : α)))

/-- The assignments of lines 300-302 with every operation rounded. -/
def Prediction.linear_path_rounded (fl cos sin : α → α) (Dt px py v phi a omega_dot : α) :
    α × α × α :=
  let px_noise := fl (fl (fl (fl (0.5 * Dt) * Dt) * cos phi) * a)
  let py_noise := fl (fl (fl (fl (0.5 * Dt) * Dt) * sin phi) * a)
  let phi_noise := fl (fl (fl (0.5 * Dt) * Dt) * omega_dot)
  (fl (fl (px + fl (fl (v * cos phi) * Dt)) + px_noise),
   fl (fl (py + fl (fl (v * sin phi) * Dt)) + py_noise),
   fl (phi + phi_noise))

/-- The assignments of lines 306-308 with every operation rounded. -/
def Prediction.curved_path_rounded (fl cos sin : α → α) (Dt px py v phi omega a omega_dot : α) :
    α × α × α :=
  let px_noise := fl (fl (fl (fl (0.5 * Dt) * Dt) * cos phi) * a)
  let py_noise := fl (fl (fl (fl (0.5 * Dt) * Dt) * sin phi) * a)
  let phi_noise := fl (fl (fl (0.5 * Dt) * Dt) * omega_dot)
  (fl (fl (px + fl (fl (v * fl (sin (fl (phi + fl (omega * Dt))) - sin phi)) / omega))
      + px_noise),
   fl (fl (py + fl (fl (v * fl (-cos (fl (phi + fl (omega * Dt))) + cos phi)) / omega))
      + py_noise),
   fl (fl (phi + fl (omega * Dt)) + phi_noise))

/-- The body of the loop of `Prediction` for column `i` (lines 278-309) with
every operation rounded. -/
def Prediction.column_rounded (fl cos sin : α → α) (Dt : α) (Xsig_joint : MatrixXd α) (i : Nat) :
    Fin 5 → α :=
  let px := Xsig_joint.coeff 0 i
  let py := Xsig_joint.coeff 1 i
  let v := Xsig_joint.coeff 2 i
  let phi := Xsig_joint.coeff 3 i
  let omega := Xsig_joint.coeff 4 i
  let a := Xsig_joint.coeff 5 i
  let omega_dot := Xsig_joint.coeff 6 i
  let v_noise := fl (Dt * a)
  let omega_noise := fl (Dt * omega_dot)
  let p :=
    if |omega| < fl 0.001 then
      Prediction.linear_path_rounded fl cos sin Dt px py v phi a omega_dot
    else Prediction.curved_path_rounded fl cos sin Dt px py v phi omega a omega_dot
  ![p.1, p.2.1, fl (v + v_noise), p.2.2, fl (omega + omega_noise)]

/-- The member `Xsig_pred_` after the loop of `Prediction`, every operation
rounded. -/
def Prediction.Xsig_pred_rounded (fl cos sin : α → α) (Dt : α) (Xsig_joint : MatrixXd α)
    (old : Fin 5 → Nat → α) : Fin 5 → Nat → α :=
  fun r i =>
    if i < Xsig_joint.cols then Prediction.column_rounded fl cos sin Dt Xsig_joint i r
    else old r i

/-- The local `x_pred` after the loop of `Prediction` (lines 263 and 311),
every operation rounded. -/
def Prediction.x_pred_rounded (fl : α → α) (Xsig_joint : MatrixXd α)
    (Xsig_pred : Fin 5 → Nat → α) : Fin 5 → α :=
  fun r => accumulate fl
    (fun i => fl (Prediction.w_m_rounded fl Xsig_joint.rows i * Xsig_pred r i)) Xsig_joint.cols

/-- The local `Sigma_pred` of `Prediction` (lines 316-318), every operation
rounded: entry `(r, c)` of the summand is `(w_c[i] * d(r)) * d(c)` with
`d = Xsig_pred_.col(i) - x_pred`. -/
def Prediction.Sigma_pred_rounded (fl : α → α) (kappa beta : α) (Xsig_joint : MatrixXd α)
    (Xsig_pred : Fin 5 → Nat → α) (x_pred : Fin 5 → α) : Fin 5 → Fin 5 → α :=
  fun r c => accumulate fl
    (fun i => fl (fl (Prediction.w_c_rounded fl kappa beta Xsig_joint.rows i
        * fl (Xsig_pred r i - x_pred r)) * fl (Xsig_pred c i - x_pred c))) Xsig_joint.cols

/-- `UKF::Prediction` (lines 243-325) with every `double` operation
rounded. -/
def Prediction_rounded (fl : α → α) (env : Env α) (s : UKF α) (Dt : α) : Outcome (UKF α) :=
  match env.GenerateJointSigmaPoints s.x_ s.Sigma_ s.std_a_ s.std_yawdd_ s.Xsig_joint_ with
  | .error e => .failed e s
  | .ok Xsig_joint =>
    let Xsig_pred := Prediction.Xsig_pred_rounded fl env.cos env.sin Dt Xsig_joint s.Xsig_pred_
    let x_pred := Prediction.x_pred_rounded fl Xsig_joint Xsig_pred
    let Sigma_pred :=
      Prediction.Sigma_pred_rounded fl env.kappa env.beta Xsig_joint Xsig_pred x_pred
    .done { s with
      Xsig_joint_ := Xsig_joint
      Xsig_pred_ := Xsig_pred
      x_ := x_pred
      Sigma_ := Sigma_pred }

/-- Example output of `GenerateJointSigmaPoints`: the 7 x 15 sigma points of
a joint distribution with mean 0 whose position coordinates are correlated.
Columns 1 and 8 are plus and minus `(0.375, 0.875, 0, 0, 0, 0, 0)`, columns 2
and 9 are plus and minus `(0, 0.875, 0, 0, 0, 0, 0)`, and columns `j + 1` and
`j + 8` for `j = 2, ..., 6` are plus and minus the unit vector of coordinate
`j`. -/
def correlatedJoint : MatrixXd α where
  rows := 7
  cols := 15
  coeff := fun r c =>
    if c = 1 then (if r = 0 then 0.375 else if r = 1 then 0.875 else 0)
    else if c = 8 then (if r = 0 then -0.375 else if r = 1 then -0.875 else 0)
    else if c = 2 then (if r = 1 then 0.875 else 0)
    else if c = 9 then (if r = 1 then -0.875 else 0)
    else if 2 ≤ r ∧ c = r + 1 then 1
    else if 2 ≤ r ∧ c = r + 8 then -1
    else 0

/-- Example environment whose joint sigma points are `correlatedJoint`. -/
def correlatedEnv (cos sin toFloat : α → α) : Env α :=
  { exampleEnv cos sin toFloat (fun _ => 0) false with
    GenerateJointSigmaPoints := fun _ _ _ _ _ => .ok correlatedJoint }

/-! ## The helpers, modelled from the spec -/

/-- Modelled from the spec: the matrix square root of `GenerateJointSigmaPoints`
is outside `ukf.cpp`; spec section 4.1 asks for `L` with `L * L^T = covariance`
"(e.g. Cholesky decomposition)" and a `NumericalError` when the covariance is
not positive semidefinite.  This is column `j` of the Cholesky factor of the
`n x n` matrix `A` (only the lower triangle of `A` is read), given the columns
before `j` in `L`: it fails on a negative pivot, and on a zero pivot with an
entry below it that is not 0. -/
def choleskyColumn (sqrt : α → α) (n : Nat) (A L : Nat → Nat → α) (j : Nat) :
    Except NumericalError (Nat → Nat → α) :=
  if A j j - ∑ k ∈ Finset.range j, L j k * L j k < 0 then .error .decomposition
  else if sqrt (A j j - ∑ k ∈ Finset.range j, L j k * L j k) = 0
      ∧ ∃ i ∈ Finset.range n, j < i ∧ A i j - ∑ k ∈ Finset.range j, L i k * L j k ≠ 0 then
    .error .decomposition
  else
    .ok (fun i c =>
      if c = j then
        if i = j then sqrt (A j j - ∑ k ∈ Finset.range j, L j k * L j k)
        else if j < i ∧ i < n then
          (A i j - ∑ k ∈ Finset.range j, L i k * L j k)
            / sqrt (A j j - ∑ k ∈ Finset.range j, L j k * L j k)
        else 0
      else L i c)

/-- Modelled from the spec: the first `m` columns of the Cholesky factor of
`A` (spec section 4.1), column by column. -/
def cholesky (sqrt : α → α) (n : Nat) (A : Nat → Nat → α) :
    Nat → Except NumericalError (Nat → Nat → α)
  | 0 => .ok (fun _ _ => 0)
  | m + 1 =>
    match cholesky sqrt n A m with
    | .error e => .error e
    | .ok L => choleskyColumn sqrt n A L m

/-- Modelled from the spec: the covariance of the augmented belief (spec
section 3): the 5x5 covariance of the belief and the two process-noise
variances `std_a^2`, `std_yawdd^2` on the diagonal. -/
def augmentedCovariance (P : Fin 5 → Fin 5 → α) (std_a std_yawdd : α) : Nat → Nat → α :=
  fun r c =>
    if h : r < 5 ∧ c < 5 then P ⟨r, h.1⟩ ⟨c, h.2⟩
    else if r = c then (if r = 5 then std_a * std_a else if r = 6 then std_yawdd * std_yawdd else 0)
    else 0

/-- Modelled from the spec: `GenerateJointSigmaPoints` is defined outside
`ukf.cpp`.  Following spec sections 4.1 and 4.4 it builds the augmented
belief, computes the Cholesky factor `L` of its covariance and fails with a
`NumericalError` when there is none; point 0 is the mean padded with two
zeros, point `j + 1` adds `sqrt(n + lambda)` times column `j` of `L` and point
`j + 8` subtracts it, with `n = 7` and `lambda = 3 - 7`. -/
def GenerateJointSigmaPoints_spec (sqrt : α → α) (x : Fin 5 → α) (P : Fin 5 → Fin 5 → α)
    (std_a std_yawdd : α) (_ : MatrixXd α) : Except NumericalError (MatrixXd α) :=
  match cholesky sqrt 7 (augmentedCovariance P std_a std_yawdd) 7 with
  | .error e => .error e
  | .ok L =>
    .ok
      { rows := 7
        cols := 15
        coeff := fun r c =>
          (if h : r < 5 then x ⟨r, h⟩ else 0)
            + (if c = 0 then 0
              else if c ≤ 7 then sqrt ((7 : α) + Prediction.lambda 7) * L r (c - 1)
              else -(sqrt ((7 : α) + Prediction.lambda 7) * L r (c - 8))) }

/-- Modelled from the spec: the predicted measurement mean of `UpdateLidar`
(spec section 4.5, steps 1 to 3): the measurement model is the projection on
the two position rows, the sum runs over the fifteen predicted sigma points
and the weights are those of `Prediction` recomputed with `n = 5`. -/
def UpdateLidar_spec.z_pred (Xsig_pred : Fin 5 → Nat → α) : Fin 2 → α :=
  fun k => ∑ i ∈ Finset.range 15,
    Prediction.w_m 5 i * Xsig_pred (Fin.castLE (by norm_num) k) i

/-- Modelled from the spec: the innovation covariance `S` of `UpdateLidar`
(spec section 4.5, step 3): the weighted outer products of the differences to
the predicted measurement mean plus the diagonal measurement noise. -/
def UpdateLidar_spec.S (Xsig_pred : Fin 5 → Nat → α) (std_laspx std_laspy beta kappa : α) :
    Fin 2 → Fin 2 → α :=
  fun k l =>
    ∑ i ∈ Finset.range 15,
        Prediction.w_c kappa beta 5 i
          * (Xsig_pred (Fin.castLE (by norm_num) k) i - UpdateLidar_spec.z_pred Xsig_pred k)
          * (Xsig_pred (Fin.castLE (by norm_num) l) i - UpdateLidar_spec.z_pred Xsig_pred l)
      + (if k = l then ![std_laspx * std_laspx, std_laspy * std_laspy] k else 0)

/-- Modelled from the spec: the cross-covariance of `UpdateLidar` (spec
section 4.5, step 4). -/
def UpdateLidar_spec.T (Xsig_pred : Fin 5 → Nat → α) (x : Fin 5 → α) (beta kappa : α) :
    Fin 5 → Fin 2 → α :=
  fun r k =>
    ∑ i ∈ Finset.range 15,
      Prediction.w_c kappa beta 5 i * (Xsig_pred r i - x r)
        * (Xsig_pred (Fin.castLE (by norm_num) k) i - UpdateLidar_spec.z_pred Xsig_pred k)

/-- Modelled from the spec: `UpdateLidar` is defined outside `ukf.cpp`.
Following spec section 4.5 it computes the innovation covariance `S`, fails
with a `NumericalError` when `S` is singular (its determinant is 0) and
otherwise returns the posterior mean `x + K*y`, the posterior covariance
`P - K*S*K^T` and the statistic `y^T * S^-1 * y`, with `K = T * S^-1` and
`y = z - z_pred`. -/
def UpdateLidar_spec (pack : MeasurementPackage α) (Xsig_pred : Fin 5 → Nat → α)
    (x : Fin 5 → α) (P : Fin 5 → Fin 5 → α) (std_laspx std_laspy beta kappa : α) :
    Except NumericalError (LidarUpdate α) :=
  let S := UpdateLidar_spec.S Xsig_pred std_laspx std_laspy beta kappa
  let det := S 0 0 * S 1 1 - S 0 1 * S 1 0
  if det = 0 then .error .singular
  else
    let Sinv : Fin 2 → Fin 2 → α := fun k l => ![![S 1 1, -S 0 1], ![-S 1 0, S 0 0]] k l / det
    let K : Fin 5 → Fin 2 → α :=
      fun r k => ∑ l : Fin 2, UpdateLidar_spec.T Xsig_pred x beta kappa r l * Sinv l k
    let y : Fin 2 → α :=
      fun k => pack.raw_measurements_ k.val - UpdateLidar_spec.z_pred Xsig_pred k
    .ok
      { NIS := ∑ k : Fin 2, ∑ l : Fin 2, y k * Sinv k l * y l
        x_ := fun r => x r + ∑ k : Fin 2, K r k * y k
        Sigma_ := fun r c => P r c - ∑ k : Fin 2, ∑ l : Fin 2, K r k * S k l * K c l }

/-- Example environment with the helpers of `Prediction` and of the LASER
update modelled from the spec; `sqrt` is the square root of libm and `kappa`,
`beta` are the two tuning constants of `ukf.h`. -/
def specEnv (cos sin sqrt toFloat : α → α) (kappa beta : α) : Env α :=
  { exampleEnv cos sin toFloat (fun _ => 0) false with
    kappa := kappa
    beta := beta
    GenerateJointSigmaPoints := GenerateJointSigmaPoints_spec sqrt
    UpdateLidar := UpdateLidar_spec }

/-- Example filter on the x axis: constructed, initialised, at rest at
position `(2.25, 0)` with a diagonal covariance. -/
def axisFilter : UKF α :=
  { ctor rawObject with
    is_initialized_ := true
    x_ := ![2.25, 0, 0, 0, 0]
    Sigma_ := fun i j => if i = j then ![0.187275, 1, 0.5, 1, 1] i else 0 }

/-- Example measurement: LASER `[2.25, 0.0]`, one second after time 0. -/
def axisPack : MeasurementPackage α :=
  ⟨1000000, .LASER, readings [2.25, 0.0]⟩

/-! ## The first measurement -/

/-- C1.  A RADAR first measurement with range 0: after `ProcessMeasurement` on a
freshly constructed filter the covariance is `inf_variance` times the
identity and entries 0 to 3 of the mean are 0, but entry 4 of the mean is
never written: the comma initializer of line 121 receives four coefficients,
so `x_[4]` is what the allocation of line 82 held. -/
theorem ProcessMeasurement_radar_zero_range (env : Env α) (raw : UKF α) (t : Int)
    (theta rho_dot : α) :
    ((ProcessMeasurement env (ctor raw) ⟨t, .RADAR, readings [0, theta, rho_dot]⟩).state.x_ 4
        = env.fresh_x 4)
      ∧ (∀ i : Fin 5, i ≠ 4 →
          (ProcessMeasurement env (ctor raw) ⟨t, .RADAR, readings [0, theta, rho_dot]⟩).state.x_ i
            = 0)
      ∧ (ProcessMeasurement env (ctor raw) ⟨t, .RADAR, readings [0, theta, rho_dot]⟩).state.Sigma_
          = scaledIdentity env.inf_variance := by
  refine ⟨?_, ?_, ?_⟩
  · simp [ProcessMeasurement, ctor, Init, readings, Outcome.state, commaInitVec]
    rfl
  · intro i hi
    fin_cases i <;>
      first
        | exact absurd rfl hi
        | (simp [ProcessMeasurement, ctor, Init, readings, Outcome.state, commaInitVec]; done)
        | (simp [ProcessMeasurement, ctor, Init, readings, Outcome.state, commaInitVec]; rfl)
  · simp [ProcessMeasurement, ctor, Init, readings, Outcome.state]

/-- Five coefficients fill a vector of five entries. -/
theorem commaInitVec_five (storage : Fin 5 → α) (a b c d e : α) :
    commaInitVec storage [a, b, c, d, e] = ![a, b, c, d, e] := by
  funext i
  fin_cases i <;> rfl

/-- Four coefficients leave the last of five entries as it was. -/
theorem commaInitVec_four (storage : Fin 5 → α) (a b c d : α) :
    commaInitVec storage [a, b, c, d] = ![a, b, c, d, storage 4] := by
  funext i
  fin_cases i <;> rfl

/-- Twenty-four coefficients fill a 5x5 matrix row by row up to entry (4,3)
and leave entry (4,4) as it was. -/
theorem commaInitMat_twenty_four (storage : Fin 5 → Fin 5 → α)
    (a00 a01 a02 a03 a04 a10 a11 a12 a13 a14 a20 a21 a22 a23 a24 a30 a31 a32 a33 a34
      a40 a41 a42 a43 : α) :
    commaInitMat storage
        [a00, a01, a02, a03, a04, a10, a11, a12, a13, a14, a20, a21, a22, a23, a24,
         a30, a31, a32, a33, a34, a40, a41, a42, a43]
      = ![![a00, a01, a02, a03, a04], ![a10, a11, a12, a13, a14], ![a20, a21, a22, a23, a24],
          ![a30, a31, a32, a33, a34], ![a40, a41, a42, a43, storage 4 4]] := by
  funext i j
  fin_cases i <;> fin_cases j <;> rfl

/-- After a LASER first measurement whose reading is not the origin, `Init`
has written the five coefficients of line 100 and the twenty-four
coefficients of lines 108-112. -/
theorem Init_laser (env : Env α) (s : UKF α) (pack : MeasurementPackage α)
    (hs : pack.sensor_type_ = .LASER)
    (h : pack.raw_measurements_ 0 * pack.raw_measurements_ 0
      + pack.raw_measurements_ 1 * pack.raw_measurements_ 1 ≠ 0) :
    Init env s pack =
      { s with
        x_ := ![pack.raw_measurements_ 0, pack.raw_measurements_ 1, 0, 0, 0]
        Sigma_ :=
          ![![s.std_laspx_ * s.std_laspx_, 0, 0, 0, 0],
            ![0.0, s.std_laspy_ * s.std_laspy_, 0, 0, 0],
            ![0, 0, env.inf_variance, 0, 0],
            ![0, 0, 0, env.inf_variance, 0],
            ![0, 0, 0, env.inf_variance, env.fresh_Sigma 4 4]] } := by
  unfold Init
  rw [hs]
  simp only [if_neg h, commaInitVec_five, commaInitMat_twenty_four]

/-- The reading `[1.0, 1.0]` is not the origin. -/
theorem readings_one_one_ne :
    (readings [1.0, 1.0] 0 : α) * readings [1.0, 1.0] 0
      + readings [1.0, 1.0] 1 * readings [1.0, 1.0] 1 ≠ 0 := by
  simp only [readings, List.getD_cons_zero, List.getD_cons_succ]
  norm_num

/-- The first call stores what `Init` produces, the time stamp and the
flag. -/
theorem ProcessMeasurement_uninitialized (env : Env α) (s : UKF α) (pack : MeasurementPackage α)
    (h : s.is_initialized_ = false) :
    ProcessMeasurement env s pack =
      .done { Init env s pack with
        previous_timestamp_ := pack.timestamp_
        is_initialized_ := true } := by
  simp [ProcessMeasurement, h]

/-- C2.  The LASER first measurement `[1.0, 1.0]` at time 0: after
`ProcessMeasurement` on a freshly constructed filter the mean is
`[1, 1, 0, 0, 0]` and the first four rows of the covariance are those of
`diag(std_laspx_^2, std_laspy_^2, inf_variance, inf_variance, inf_variance)`,
but the last row is `0, 0, 0, inf_variance` followed by an entry that is never
written: the comma initializer of lines 108-112 receives twenty-four
coefficients, so `Sigma_(4,3)` is `inf_variance` and `Sigma_(4,4)` is what the
allocation of line 107 held. -/
theorem ProcessMeasurement_laser_one_one (env : Env α) (raw : UKF α) :
    ((ProcessMeasurement env (ctor raw) ⟨0, .LASER, readings [1.0, 1.0]⟩).state.x_
        = ![1, 1, 0, 0, 0])
      ∧ ((ProcessMeasurement env (ctor raw) ⟨0, .LASER, readings [1.0, 1.0]⟩).state.Sigma_ 4 3
          = env.inf_variance)
      ∧ ((ProcessMeasurement env (ctor raw) ⟨0, .LASER, readings [1.0, 1.0]⟩).state.Sigma_ 4 4
          = env.fresh_Sigma 4 4)
      ∧ (∀ i j : Fin 5, i ≠ 4 →
          (ProcessMeasurement env (ctor raw) ⟨0, .LASER, readings [1.0, 1.0]⟩).state.Sigma_ i j
            = if i = j then
                ![(0.015 : α) * 0.015, 0.015 * 0.015, env.inf_variance, env.inf_variance,
                  env.inf_variance] i
              else 0) := by
  rw [ProcessMeasurement_uninitialized env (ctor raw) _ rfl,
    Init_laser env (ctor raw) ⟨0, .LASER, readings [1.0, 1.0]⟩ rfl readings_one_one_ne]
  refine ⟨?_, rfl, rfl, ?_⟩
  · funext i
    fin_cases i <;> simp [Outcome.state, readings] <;> norm_num
  · intro i j hi
    fin_cases i <;> fin_cases j <;>
      first
        | exact absurd rfl hi
        | (simp [Outcome.state, ctor] <;> first | rfl | norm_num)

/-- C6.  After `Init` on the LASER first measurement `[1.0, 1.0]` the
covariance has `Sigma_(4,3) = inf_variance` and `Sigma_(3,4) = 0`: it is
symmetric only if `inf_variance` is 0. -/
theorem Init_laser_Sigma_symmetric_iff (env : Env α) (s : UKF α) (t : Int) :
    (∀ i j : Fin 5, (Init env s ⟨t, .LASER, readings [1.0, 1.0]⟩).Sigma_ i j
        = (Init env s ⟨t, .LASER, readings [1.0, 1.0]⟩).Sigma_ j i)
      ↔ env.inf_variance = 0 := by
  rw [Init_laser env s ⟨t, .LASER, readings [1.0, 1.0]⟩ rfl readings_one_one_ne]
  constructor
  · intro h
    have h43 := h 4 3
    simpa using h43
  · intro h0 i j
    fin_cases i <;> fin_cases j <;> simp [h0] <;> first | rfl | norm_num

/-! ## Control flow of `ProcessMeasurement` -/

/-- `Prediction` after a normal return of `GenerateJointSigmaPoints`. -/
theorem Prediction_of_ok (env : Env α) (s : UKF α) (Dt : α) (X : MatrixXd α)
    (h : env.GenerateJointSigmaPoints s.x_ s.Sigma_ s.std_a_ s.std_yawdd_ s.Xsig_joint_ = .ok X) :
    Prediction env s Dt =
      .done { s with
        Xsig_joint_ := X
        Xsig_pred_ := Prediction.Xsig_pred env.cos env.sin Dt X s.Xsig_pred_
        x_ := Prediction.x_pred X (Prediction.Xsig_pred env.cos env.sin Dt X s.Xsig_pred_)
        Sigma_ := Prediction.Sigma_pred env.kappa env.beta X
          (Prediction.Xsig_pred env.cos env.sin Dt X s.Xsig_pred_)
          (Prediction.x_pred X (Prediction.Xsig_pred env.cos env.sin Dt X s.Xsig_pred_)) } := by
  simp only [Prediction, h]

/-- `Prediction` after an error of `GenerateJointSigmaPoints`. -/
theorem Prediction_of_error (env : Env α) (s : UKF α) (Dt : α) (e : NumericalError)
    (h : env.GenerateJointSigmaPoints s.x_ s.Sigma_ s.std_a_ s.std_yawdd_ s.Xsig_joint_
      = .error e) :
    Prediction env s Dt = .failed e s := by
  simp only [Prediction, h]

/-- `Prediction` writes `Xsig_joint_`, `Xsig_pred_`, `x_` and `Sigma_` only. -/
theorem Prediction_frame (env : Env α) (s : UKF α) (Dt : α) :
    (Prediction env s Dt).state.is_initialized_ = s.is_initialized_
      ∧ (Prediction env s Dt).state.previous_timestamp_ = s.previous_timestamp_
      ∧ (Prediction env s Dt).state.use_laser_ = s.use_laser_
      ∧ (Prediction env s Dt).state.use_radar_ = s.use_radar_ := by
  cases h : env.GenerateJointSigmaPoints s.x_ s.Sigma_ s.std_a_ s.std_yawdd_ s.Xsig_joint_ with
  | error e => simp [Prediction_of_error env s Dt e h, Outcome.state]
  | ok X => simp [Prediction_of_ok env s Dt X h, Outcome.state]

/-- `Update` writes `NIS_laser_`, `NIS_radar_`, `x_` and `Sigma_` only. -/
theorem Update_frame (env : Env α) (s : UKF α) (pack : MeasurementPackage α) :
    (Update env s pack).state.is_initialized_ = s.is_initialized_
      ∧ (Update env s pack).state.previous_timestamp_ = s.previous_timestamp_ := by
  unfold Update
  cases pack.sensor_type_ with
  | LASER =>
    by_cases hl : s.use_laser_ = true
    · cases hu : env.UpdateLidar pack s.Xsig_pred_ s.x_ s.Sigma_ s.std_laspx_ s.std_laspy_
          env.beta env.kappa <;> simp [hl, hu, Outcome.state]
    · simp [hl, Outcome.state]
  | RADAR =>
    by_cases hr : s.use_radar_ = true
    · cases hu : env.UpdateRadar pack s.Xsig_pred_ s.x_ s.Sigma_ s.std_radr_ s.std_radphi_
          s.std_radrd_ env.beta env.kappa <;> simp [hr, hu, Outcome.state]
    · simp [hr, Outcome.state]

/-- The state after two calls in sequence is the state after the second, or
the state at which the first gave up. -/
theorem Outcome.andThen_state_cases {σ : Type} (o : Outcome σ) (f : σ → Outcome σ) :
    (o.andThen f).state = (f o.state).state ∨ (o.andThen f).state = o.state := by
  cases o with
  | done s => exact Or.inl rfl
  | failed e s => exact Or.inr rfl

/-- A later call runs `Prediction` and then `Update`. -/
theorem ProcessMeasurement_initialized (env : Env α) (s : UKF α) (pack : MeasurementPackage α)
    (h : s.is_initialized_ = true) :
    ProcessMeasurement env s pack =
      (Prediction env { s with previous_timestamp_ := pack.timestamp_ }
          (ProcessMeasurement.dt env.toFloat pack.timestamp_ s.previous_timestamp_)).andThen
        (fun s2 => Update env s2 pack) := by
  simp [ProcessMeasurement, h]

/-- `Update` with the sensor of the measurement switched off. -/
theorem Update_of_disabled (env : Env α) (s : UKF α) (pack : MeasurementPackage α)
    (h : (pack.sensor_type_ = .LASER ∧ s.use_laser_ = false)
      ∨ (pack.sensor_type_ = .RADAR ∧ s.use_radar_ = false)) :
    Update env s pack = .done s := by
  unfold Update
  rcases h with ⟨hs, hf⟩ | ⟨hs, hf⟩ <;> simp [hs, hf]

/-- C3.  When the sensor of the measurement is switched off, `Update` returns
the object as it received it (so `x_`, `Sigma_`, `NIS_laser_` and `NIS_radar_`
are unchanged), and `ProcessMeasurement` on an initialised filter ends exactly
as `Prediction(dt)` does on the filter with the new time stamp. -/
theorem Update_disabled_sensor (env : Env α) (s : UKF α) (pack : MeasurementPackage α)
    (hinit : s.is_initialized_ = true)
    (h : (pack.sensor_type_ = .LASER ∧ s.use_laser_ = false)
      ∨ (pack.sensor_type_ = .RADAR ∧ s.use_radar_ = false)) :
    Update env s pack = .done s
      ∧ ProcessMeasurement env s pack =
          Prediction env { s with previous_timestamp_ := pack.timestamp_ }
            (ProcessMeasurement.dt env.toFloat pack.timestamp_ s.previous_timestamp_) := by
  refine ⟨Update_of_disabled env s pack h, ?_⟩
  rw [ProcessMeasurement_initialized env s pack hinit]
  have hf := Prediction_frame env { s with previous_timestamp_ := pack.timestamp_ }
    (ProcessMeasurement.dt env.toFloat pack.timestamp_ s.previous_timestamp_)
  cases hP : Prediction env { s with previous_timestamp_ := pack.timestamp_ }
      (ProcessMeasurement.dt env.toFloat pack.timestamp_ s.previous_timestamp_) with
  | failed e s2 => rfl
  | done s2 =>
    rw [hP] at hf
    simp only [Outcome.state] at hf
    simp only [Outcome.andThen]
    apply Update_of_disabled
    rw [hf.2.2.1, hf.2.2.2]
    exact h

/-- The example filter is initialised and keeps the chosen laser flag. -/
theorem exampleFilter_flags (env : Env α) (laser_on : Bool) :
    (exampleFilter env laser_on).is_initialized_ = true
      ∧ (exampleFilter env laser_on).use_laser_ = laser_on := by
  unfold exampleFilter
  rw [ProcessMeasurement_uninitialized env _ _ rfl,
    Init_laser env _ ⟨0, .LASER, readings [1.0, 1.0]⟩ rfl readings_one_one_ne]
  exact ⟨rfl, rfl⟩

/-- Witness of C3: the LASER measurement `[1.2, 1.0]`, 0.1 s after the
initialisation, with the laser switched off. -/
theorem Update_disabled_sensor_witness :
    (exampleFilter (exampleEnv Real.cos Real.sin float32 (fun _ => 0) false) false).is_initialized_
        = true
      ∧ ((examplePack : MeasurementPackage ℝ).sensor_type_ = .LASER
          ∧ (exampleFilter (exampleEnv Real.cos Real.sin float32 (fun _ => 0) false) false).use_laser_
            = false)
      ∧ (Update (exampleEnv Real.cos Real.sin float32 (fun _ => 0) false)
            (exampleFilter (exampleEnv Real.cos Real.sin float32 (fun _ => 0) false) false)
            examplePack
          = .done (exampleFilter (exampleEnv Real.cos Real.sin float32 (fun _ => 0) false) false)
        ∧ ProcessMeasurement (exampleEnv Real.cos Real.sin float32 (fun _ => 0) false)
            (exampleFilter (exampleEnv Real.cos Real.sin float32 (fun _ => 0) false) false)
            examplePack
          = Prediction (exampleEnv Real.cos Real.sin float32 (fun _ => 0) false)
              { exampleFilter (exampleEnv Real.cos Real.sin float32 (fun _ => 0) false) false with
                previous_timestamp_ := (examplePack : MeasurementPackage ℝ).timestamp_ }
              (ProcessMeasurement.dt
                (exampleEnv Real.cos Real.sin float32 (fun _ => 0) false).toFloat
                (examplePack : MeasurementPackage ℝ).timestamp_
                (exampleFilter (exampleEnv Real.cos Real.sin float32 (fun _ => 0) false)
                  false).previous_timestamp_)) :=
  ⟨(exampleFilter_flags _ false).1, ⟨rfl, (exampleFilter_flags _ false).2⟩,
    Update_disabled_sensor _ _ _ (exampleFilter_flags _ false).1
      (Or.inl ⟨rfl, (exampleFilter_flags _ false).2⟩)⟩

/-- `Init` reads neither sensor flag. -/
theorem Init_flags_irrelevant (env : Env α) (s : UKF α) (pack : MeasurementPackage α)
    (l r : Bool) :
    (Init env { s with use_laser_ := l, use_radar_ := r } pack).x_ = (Init env s pack).x_
      ∧ (Init env { s with use_laser_ := l, use_radar_ := r } pack).Sigma_
          = (Init env s pack).Sigma_ := by
  unfold Init
  cases pack.sensor_type_ with
  | LASER =>
    by_cases h : pack.raw_measurements_ 0 * pack.raw_measurements_ 0
        + pack.raw_measurements_ 1 * pack.raw_measurements_ 1 = 0
    · simp only [if_pos h, and_self]
    · simp only [if_neg h, and_self]
  | RADAR =>
    by_cases h : pack.raw_measurements_ 0 = 0
    · simp only [if_pos h, and_self]
    · simp only [if_neg h]
      exact ⟨rfl, rfl⟩

/-- Every call leaves the filter initialised. -/
theorem ProcessMeasurement_is_initialized (env : Env α) (s : UKF α)
    (pack : MeasurementPackage α) :
    (ProcessMeasurement env s pack).state.is_initialized_ = true := by
  cases h : s.is_initialized_ with
  | false => rw [ProcessMeasurement_uninitialized env s pack h]; rfl
  | true =>
    rw [ProcessMeasurement_initialized env s pack h]
    have hP := Prediction_frame env { s with previous_timestamp_ := pack.timestamp_ }
      (ProcessMeasurement.dt env.toFloat pack.timestamp_ s.previous_timestamp_)
    rcases Outcome.andThen_state_cases
      (Prediction env { s with previous_timestamp_ := pack.timestamp_ }
        (ProcessMeasurement.dt env.toFloat pack.timestamp_ s.previous_timestamp_))
      (fun s2 => Update env s2 pack) with hc | hc
    · rw [hc, (Update_frame env _ pack).1, hP.1]; exact h
    · rw [hc, hP.1]; exact h

/-- C8.  On the first call `ProcessMeasurement` returns the object that `Init`
produces, with the time stamp of the measurement and the flag raised; the
result does not depend on the helpers of `Prediction` and `Update`, nor on the
two sensor flags.  After any call the filter is initialised, and a call on an
initialised filter is `Prediction` followed by `Update`. -/
theorem ProcessMeasurement_first_call (env : Env α) (s : UKF α) (pack : MeasurementPackage α)
    (h : s.is_initialized_ = false) :
    (ProcessMeasurement env s pack =
        .done { Init env s pack with
          previous_timestamp_ := pack.timestamp_
          is_initialized_ := true })
      ∧ (∀ g ul ur,
          ProcessMeasurement
              { env with GenerateJointSigmaPoints := g, UpdateLidar := ul, UpdateRadar := ur }
              s pack
            = ProcessMeasurement env s pack)
      ∧ (∀ l r : Bool,
          (ProcessMeasurement env { s with use_laser_ := l, use_radar_ := r } pack).state.x_
              = (Init env s pack).x_
            ∧ (ProcessMeasurement env { s with use_laser_ := l, use_radar_ := r }
                pack).state.Sigma_ = (Init env s pack).Sigma_
            ∧ (ProcessMeasurement env { s with use_laser_ := l, use_radar_ := r }
                pack).state.previous_timestamp_ = pack.timestamp_)
      ∧ (∀ (s1 : UKF α) (pack1 : MeasurementPackage α),
          (ProcessMeasurement env s1 pack1).state.is_initialized_ = true)
      ∧ (∀ (s1 : UKF α) (pack1 : MeasurementPackage α), s1.is_initialized_ = true →
          ProcessMeasurement env s1 pack1 =
            (Prediction env { s1 with previous_timestamp_ := pack1.timestamp_ }
                (ProcessMeasurement.dt env.toFloat pack1.timestamp_
                  s1.previous_timestamp_)).andThen
              (fun s2 => Update env s2 pack1)) := by
  refine ⟨ProcessMeasurement_uninitialized env s pack h, ?_, ?_,
    ProcessMeasurement_is_initialized env, ProcessMeasurement_initialized env⟩
  · intro g ul ur
    rw [ProcessMeasurement_uninitialized env s pack h, ProcessMeasurement_uninitialized _ s pack h]
    rfl
  · intro l r
    rw [ProcessMeasurement_uninitialized env { s with use_laser_ := l, use_radar_ := r } pack h]
    exact ⟨(Init_flags_irrelevant env s pack l r).1, (Init_flags_irrelevant env s pack l r).2, rfl⟩

/-- Witness of C8: a RADAR first measurement on a freshly constructed
filter. -/
theorem ProcessMeasurement_first_call_witness :
    (ctor (rawObject : UKF ℝ)).is_initialized_ = false
      ∧ (ProcessMeasurement (exampleEnv Real.cos Real.sin float32 (fun _ => 0) false)
            (ctor rawObject) ⟨0, .RADAR, readings [1.0, 0.5, 2.0]⟩).state.is_initialized_
          = true :=
  ⟨rfl, (ProcessMeasurement_first_call (exampleEnv Real.cos Real.sin float32 (fun _ => 0) false)
    (ctor rawObject) ⟨0, .RADAR, readings [1.0, 0.5, 2.0]⟩ rfl).2.2.2.1 _ _⟩

/-! ## Weights -/

/-- In `Prediction` the sum `lambda + dim_joint` is 3. -/
theorem Prediction.lambda_add (n : Nat) : (Prediction.lambda n : α) + (n : α) = 3 := by
  simp [Prediction.lambda]

/-- Read as exact formulas, the mean weights sum to 1: in `Prediction` for
every joint dimension `n` and its `2n + 1` sigma points (for `n = 7` the
weights are `-4/3` and fourteen times `1/6`), and in the radar branch of
`Init` for the seven points (the weights are `0` and six times `1/6`). -/
theorem mean_weights_sum_to_one :
    (∀ n : Nat, ∑ i ∈ Finset.range (2 * n + 1), (Prediction.w_m n i : α) = 1)
      ∧ (Prediction.w_m 7 0 : α) = -4 / 3
      ∧ (∀ i : Nat, 1 ≤ i → (Prediction.w_m 7 i : α) = 1 / 6)
      ∧ ∑ i ∈ Finset.range 7, (Init.w i : α) = 1
      ∧ (Init.w 0 : α) = 0
      ∧ (∀ i : Nat, 1 ≤ i → (Init.w i : α) = 1 / 6) := by
  refine ⟨?_, ?_, ?_, ?_, ?_, ?_⟩
  · intro n
    rw [Finset.sum_range_succ']
    have h1 : ∀ i ∈ Finset.range (2 * n), (Prediction.w_m n (i + 1) : α) = 0.5 / 3 := by
      intro i _
      simp [Prediction.w_m, Prediction.lambda_add]
    rw [Finset.sum_congr rfl h1]
    simp only [Finset.sum_const, Finset.card_range, Prediction.w_m, if_true,
      Prediction.lambda_add, nsmul_eq_mul]
    simp only [Prediction.lambda]
    push_cast
    norm_num
    ring
  · simp only [Prediction.w_m, if_true, Prediction.lambda_add]
    simp only [Prediction.lambda]
    norm_num
  · intro i hi
    have : i ≠ 0 := by omega
    simp only [Prediction.w_m, if_neg this, Prediction.lambda_add]
    norm_num
  · simp only [Finset.sum_range_succ, Finset.sum_range_zero, Init.w, Init.lambda, Init.n_y]
    norm_num
  · simp [Init.w, Init.lambda, Init.n_y]
  · intro i hi
    have : i ≠ 0 := by omega
    simp only [Init.w, if_neg this, Init.lambda, Init.n_y]
    norm_num

/-! ## The elapsed time -/

/-- The binary logarithm of a number between two consecutive powers of 2. -/
theorem log_two_eq_of_bounds [FloorRing α] (r : α) (k : Int) (h1 : (2 : α) ^ k ≤ r)
    (h2 : r < (2 : α) ^ (k + 1)) : Int.log 2 r = k := by
  have hr : 0 < r := lt_of_lt_of_le (by positivity) h1
  apply le_antisymm
  · have := (Int.lt_zpow_iff_log_lt (b := 2) (by norm_num) hr (x := k + 1)).1 (by simpa using h2)
    omega
  · exact (Int.zpow_le_iff_le_log (b := 2) (by norm_num) hr).1 (by simpa using h1)

/-- A tenth of a second, narrowed to `float`, is `13421773 / 2^27`. -/
theorem float32_tenth [FloorRing α] :
    float32 (((100000 : Int) : α) / 1000000.0) = 13421773 / 134217728 := by
  have hx : ((100000 : Int) : α) / 1000000.0 = 1 / 10 := by norm_num
  rw [hx]
  have hlog : Int.log 2 |(1 / 10 : α)| = -4 := by
    apply log_two_eq_of_bounds
    · rw [abs_of_pos (by norm_num)]; norm_num
    · rw [abs_of_pos (by norm_num)]; norm_num
  have hq : (1 / 10 : α) / 2 ^ ((-4 : Int) - 23) = 67108864 / 5 := by
    norm_num
  have hfl : ⌊(67108864 / 5 : α)⌋ = 13421772 := by
    rw [Int.floor_eq_iff]
    constructor <;> norm_num
  have hr : roundTiesEven (67108864 / 5 : α) = 13421773 := by
    unfold roundTiesEven
    rw [hfl]
    norm_num
  unfold float32
  rw [if_neg (by norm_num), hlog, hq, hr]
  norm_num

/-- The example filter: its mean and its time stamp. -/
theorem exampleFilter_moments (env : Env α) (laser_on : Bool) :
    (exampleFilter env laser_on).x_ = ![1.0, 1.0, 0, 0, 0]
      ∧ (exampleFilter env laser_on).previous_timestamp_ = 0 := by
  unfold exampleFilter
  rw [ProcessMeasurement_uninitialized env _ _ rfl,
    Init_laser env _ ⟨0, .LASER, readings [1.0, 1.0]⟩ rfl readings_one_one_ne]
  exact ⟨rfl, rfl⟩

/-- Row 2 of a predicted sigma point is `v + Dt * a`. -/
theorem Prediction.column_two (cos sin : α → α) (Dt : α) (X : MatrixXd α) (i : Nat) :
    Prediction.column cos sin Dt X i 2 = X.coeff 2 i + Dt * X.coeff 5 i := rfl

/-- `Update` leaves `Xsig_pred_` as it is. -/
theorem Update_Xsig_pred (env : Env α) (s : UKF α) (pack : MeasurementPackage α) :
    (Update env s pack).state.Xsig_pred_ = s.Xsig_pred_ := by
  unfold Update
  cases pack.sensor_type_ with
  | LASER =>
    by_cases hl : s.use_laser_ = true
    · cases hu : env.UpdateLidar pack s.Xsig_pred_ s.x_ s.Sigma_ s.std_laspx_ s.std_laspy_
          env.beta env.kappa <;> simp [hl, hu, Outcome.state]
    · simp [hl, Outcome.state]
  | RADAR =>
    by_cases hr : s.use_radar_ = true
    · cases hu : env.UpdateRadar pack s.Xsig_pred_ s.x_ s.Sigma_ s.std_radr_ s.std_radphi_
          s.std_radrd_ env.beta env.kappa <;> simp [hr, hu, Outcome.state]
    · simp [hr, Outcome.state]

/-- With the example helpers and a unit spread of the acceleration noise,
entry (2, 6) of `Xsig_pred_` after `Prediction` and `Update` is the elapsed
time `Dt` that `Prediction` received. -/
theorem example_Xsig_pred_two_six (cos sin toFloat : α → α) (lidar_fails : Bool)
    (s : UKF α) (pack : MeasurementPackage α) (Dt : α) (hx : s.x_ 2 = 0) :
    ((Prediction (exampleEnv cos sin toFloat (fun j => if j = 5 then 1 else 0) lidar_fails)
        s Dt).andThen
      (fun s2 => Update (exampleEnv cos sin toFloat (fun j => if j = 5 then 1 else 0) lidar_fails)
        s2 pack)).state.Xsig_pred_ 2 6 = Dt := by
  rw [Prediction_of_ok _ s Dt (exampleJoint s.x_ (fun j => if j = 5 then 1 else 0)) rfl]
  simp only [Outcome.andThen, Update_Xsig_pred, Prediction.Xsig_pred]
  simp [exampleJoint, exampleEnv, Prediction.column_two, hx]

/-- C7, the claim as stated fails: 0.1 s after the initialisation
(`t_new - previous_timestamp_ = 100000`) `ProcessMeasurement` does not end as
`Prediction` with `Dt = 100000 / 1000000` followed by `Update` does.  The sigma
point entry `Xsig_pred_(2, 6) = v + Dt * a` with `v = 0`, `a = 1` records the
`Dt` that was used: `13421773 / 134217728`, the `float` nearest to a tenth,
instead of `1 / 10`. -/
theorem ProcessMeasurement_dt_not_exact :
    (ProcessMeasurement
          (exampleEnv Real.cos Real.sin float32 (fun j => if j = 5 then 1 else 0) false)
          (exampleFilter
            (exampleEnv Real.cos Real.sin float32 (fun j => if j = 5 then 1 else 0) false) true)
          examplePack).state.Xsig_pred_ 2 6 = 13421773 / 134217728
      ∧ ((Prediction
            (exampleEnv Real.cos Real.sin float32 (fun j => if j = 5 then 1 else 0) false)
            { exampleFilter
                (exampleEnv Real.cos Real.sin float32 (fun j => if j = 5 then 1 else 0) false)
                true with previous_timestamp_ := 100000 }
            (((100000 - 0 : Int) : ℝ) / 1000000)).andThen
          (fun s2 => Update
            (exampleEnv Real.cos Real.sin float32 (fun j => if j = 5 then 1 else 0) false)
            s2 examplePack)).state.Xsig_pred_ 2 6 = 1 / 10
      ∧ ProcessMeasurement
          (exampleEnv Real.cos Real.sin float32 (fun j => if j = 5 then 1 else 0) false)
          (exampleFilter
            (exampleEnv Real.cos Real.sin float32 (fun j => if j = 5 then 1 else 0) false) true)
          examplePack
        ≠ (Prediction
            (exampleEnv Real.cos Real.sin float32 (fun j => if j = 5 then 1 else 0) false)
            { exampleFilter
                (exampleEnv Real.cos Real.sin float32 (fun j => if j = 5 then 1 else 0) false)
                true with previous_timestamp_ := 100000 }
            (((100000 - 0 : Int) : ℝ) / 1000000)).andThen
          (fun s2 => Update
            (exampleEnv Real.cos Real.sin float32 (fun j => if j = 5 then 1 else 0) false)
            s2 examplePack) := by
  have hx := fun b => (exampleFilter_moments
    (exampleEnv Real.cos Real.sin float32 (fun j => if j = 5 then 1 else 0) false) b).1
  have ht := fun b => (exampleFilter_moments
    (exampleEnv Real.cos Real.sin float32 (fun j => if j = 5 then 1 else 0) false) b).2
  have h1 : (ProcessMeasurement
          (exampleEnv Real.cos Real.sin float32 (fun j => if j = 5 then 1 else 0) false)
          (exampleFilter
            (exampleEnv Real.cos Real.sin float32 (fun j => if j = 5 then 1 else 0) false) true)
          examplePack).state.Xsig_pred_ 2 6 = 13421773 / 134217728 := by
    rw [ProcessMeasurement_initialized _ _ _ (exampleFilter_flags _ true).1,
      example_Xsig_pred_two_six _ _ _ _ _ _ _ (by simp [hx])]
    simp only [ProcessMeasurement.dt, exampleEnv, examplePack, ht, sub_zero]
    exact float32_tenth
  have h2 := example_Xsig_pred_two_six Real.cos Real.sin float32 false
    { exampleFilter
        (exampleEnv Real.cos Real.sin float32 (fun j => if j = 5 then 1 else 0) false)
        true with previous_timestamp_ := 100000 } examplePack
    (((100000 - 0 : Int) : ℝ) / 1000000) (by simp [hx])
  have h2' : (((100000 - 0 : Int) : ℝ) / 1000000) = 1 / 10 := by norm_num
  refine ⟨h1, by rw [h2, h2'], ?_⟩
  intro hEq
  rw [hEq, h2, h2'] at h1
  norm_num at h1

/-- C7, amended.  On an initialised filter `ProcessMeasurement` stores the new
time stamp, runs `Prediction` with `Dt` equal to the quotient
`(t_new - previous_timestamp_) / 1000000` narrowed to `float`, then (after a
normal return of `Prediction`) runs `Update` on the same measurement; the
time stamp after the call is `t_new`. -/
theorem ProcessMeasurement_runs_Prediction_then_Update (env : Env α) (s : UKF α)
    (pack : MeasurementPackage α) (h : s.is_initialized_ = true) :
    ProcessMeasurement env s pack =
        (Prediction env { s with previous_timestamp_ := pack.timestamp_ }
            (env.toFloat (((pack.timestamp_ - s.previous_timestamp_ : Int) : α) / 1000000))).andThen
          (fun s2 => Update env s2 pack)
      ∧ (ProcessMeasurement env s pack).state.previous_timestamp_ = pack.timestamp_ := by
  have hdt : ProcessMeasurement.dt env.toFloat pack.timestamp_ s.previous_timestamp_
      = env.toFloat (((pack.timestamp_ - s.previous_timestamp_ : Int) : α) / 1000000) := by
    unfold ProcessMeasurement.dt
    norm_num
  rw [ProcessMeasurement_initialized env s pack h, hdt]
  refine ⟨rfl, ?_⟩
  have hP := Prediction_frame env { s with previous_timestamp_ := pack.timestamp_ }
    (env.toFloat (((pack.timestamp_ - s.previous_timestamp_ : Int) : α) / 1000000))
  rcases Outcome.andThen_state_cases
    (Prediction env { s with previous_timestamp_ := pack.timestamp_ }
      (env.toFloat (((pack.timestamp_ - s.previous_timestamp_ : Int) : α) / 1000000)))
    (fun s2 => Update env s2 pack) with hc | hc
  · rw [hc, (Update_frame env _ pack).2, hP.2.1]
  · rw [hc, hP.2.1]

/-- Witness of C7 (amended): the example filter and the example
measurement. -/
theorem ProcessMeasurement_runs_Prediction_then_Update_witness :
    (exampleFilter (exampleEnv Real.cos Real.sin float32 (fun _ => 0) false) true).is_initialized_
        = true
      ∧ (ProcessMeasurement (exampleEnv Real.cos Real.sin float32 (fun _ => 0) false)
          (exampleFilter (exampleEnv Real.cos Real.sin float32 (fun _ => 0) false) true)
          examplePack).state.previous_timestamp_ = 100000 :=
  ⟨(exampleFilter_flags _ true).1,
    (ProcessMeasurement_runs_Prediction_then_Update _ _ examplePack
      (exampleFilter_flags _ true).1).2⟩

/-! ## The motion model -/

/-- The cosine is 1-Lipschitz. -/
theorem abs_cos_add_sub_cos_le (x t : ℝ) (ht : 0 ≤ t) : |Real.cos (x + t) - Real.cos x| ≤ t := by
  rw [Real.cos_sub_cos]
  have h1 : |Real.sin ((x + t + x) / 2)| ≤ 1 := Real.abs_sin_le_one _
  have h2 : |Real.sin ((x + t - x) / 2)| ≤ t / 2 := by
    have e : (x + t - x) / 2 = t / 2 := by ring
    rw [e, abs_le]
    constructor
    · rcases le_total (t / 2) 1 with h3 | h3
      · have := Real.sin_nonneg_of_nonneg_of_le_pi (x := t / 2) (by linarith)
          (by linarith [Real.pi_gt_three])
        linarith
      · have := Real.neg_one_le_sin (t / 2)
        linarith
    · exact Real.sin_le (by linarith)
  calc |-2 * Real.sin ((x + t + x) / 2) * Real.sin ((x + t - x) / 2)|
      = 2 * |Real.sin ((x + t + x) / 2)| * |Real.sin ((x + t - x) / 2)| := by
        rw [abs_mul, abs_mul]; norm_num
    _ ≤ 2 * 1 * (t / 2) := by
        have := abs_nonneg (Real.sin ((x + t + x) / 2))
        have := abs_nonneg (Real.sin ((x + t - x) / 2))
        nlinarith
    _ = t := by ring

/-- First-order Taylor bound of the sine, for a step to the right. -/
theorem sin_taylor_nonneg (x h : ℝ) (hh : 0 ≤ h) :
    |Real.sin (x + h) - Real.sin x - h * Real.cos x| ≤ h ^ 2 / 2 := by
  have hd : ∀ t : ℝ, HasDerivAt (fun t => Real.sin (x + t) - Real.sin x - t * Real.cos x)
      (Real.cos (x + t) - Real.cos x) t := by
    intro t
    have h1 : HasDerivAt (fun t => Real.sin (x + t)) (Real.cos (x + t)) t := by
      have := (Real.hasDerivAt_sin (x + t)).comp t ((hasDerivAt_id t).const_add x)
      simpa using this
    have h2 : HasDerivAt (fun t : ℝ => t * Real.cos x) (Real.cos x) t := by
      simpa using (hasDerivAt_id t).mul_const (Real.cos x)
    exact (h1.sub_const (Real.sin x)).sub h2
  have hq : ∀ t : ℝ, HasDerivAt (fun t : ℝ => t ^ 2 / 2) t t := by
    intro t
    have := ((hasDerivAt_id t).pow 2).div_const 2
    simpa using this
  have hF : MonotoneOn (fun t => t ^ 2 / 2 - (Real.sin (x + t) - Real.sin x - t * Real.cos x)) (Set.Ici 0) := by
    refine @monotoneOn_of_hasDerivWithinAt_nonneg _ (convex_Ici 0) _
      (fun t => t - (Real.cos (x + t) - Real.cos x)) ?_ ?_ ?_
    · exact fun t _ => ((hq t).sub (hd t)).continuousAt.continuousWithinAt
    · exact fun t _ => ((hq t).sub (hd t)).hasDerivWithinAt
    · intro t ht
      rw [interior_Ici] at ht
      have := abs_le.1 (abs_cos_add_sub_cos_le x t (le_of_lt ht))
      show 0 ≤ t - (Real.cos (x + t) - Real.cos x)
      linarith
  have hG : MonotoneOn (fun t => t ^ 2 / 2 + (Real.sin (x + t) - Real.sin x - t * Real.cos x)) (Set.Ici 0) := by
    refine @monotoneOn_of_hasDerivWithinAt_nonneg _ (convex_Ici 0) _
      (fun t => t + (Real.cos (x + t) - Real.cos x)) ?_ ?_ ?_
    · exact fun t _ => ((hq t).add (hd t)).continuousAt.continuousWithinAt
    · exact fun t _ => ((hq t).add (hd t)).hasDerivWithinAt
    · intro t ht
      rw [interior_Ici] at ht
      have := abs_le.1 (abs_cos_add_sub_cos_le x t (le_of_lt ht))
      show 0 ≤ t + (Real.cos (x + t) - Real.cos x)
      linarith
  have h1 := hF (Set.mem_Ici.2 le_rfl) (Set.mem_Ici.2 hh) hh
  have h2 := hG (Set.mem_Ici.2 le_rfl) (Set.mem_Ici.2 hh) hh
  simp at h1 h2
  rw [abs_le]
  constructor <;> linarith

/-- First-order Taylor bound of the sine. -/
theorem sin_taylor (x h : ℝ) : |Real.sin (x + h) - Real.sin x - h * Real.cos x| ≤ h ^ 2 / 2 := by
  rcases le_total 0 h with hh | hh
  · exact sin_taylor_nonneg x h hh
  · have := sin_taylor_nonneg (-x) (-h) (by linarith)
    have e : -x + -h = -(x + h) := by ring
    rw [e, Real.sin_neg, Real.sin_neg, Real.cos_neg] at this
    have e2 : -Real.sin (x + h) - -Real.sin x - -h * Real.cos x = -(Real.sin (x + h) - Real.sin x - h * Real.cos x) := by ring
    rw [e2, abs_neg] at this
    simpa using this

/-- First-order Taylor bound of the cosine. -/
theorem cos_taylor (x h : ℝ) : |Real.cos (x + h) - Real.cos x + h * Real.sin x| ≤ h ^ 2 / 2 := by
  have := sin_taylor (x + Real.pi / 2) h
  have e : x + Real.pi / 2 + h = (x + h) + Real.pi / 2 := by ring
  rw [e, Real.sin_add_pi_div_two, Real.sin_add_pi_div_two, Real.cos_add_pi_div_two] at this
  have e2 : Real.cos (x + h) - Real.cos x - h * -Real.sin x = Real.cos (x + h) - Real.cos x + h * Real.sin x := by ring
  rwa [e2] at this

/-- C10, amended.  Read over the real numbers, with the exact sine and cosine
and no rounding: for a yaw rate other than 0 the curved-path assignments
(lines 306-308) and the linear-path assignments (lines 300-302) differ by at
most `|v| * |omega| * Dt^2 / 2` in each position and by exactly `omega * Dt`
in the heading; at `|omega| = 0.001` the position bound is
`0.0005 * |v| * Dt^2`; and the position differences tend to 0 as `omega`
tends to 0. -/
theorem curved_path_near_linear_path (Dt px py v phi a omega_dot omega : ℝ) (h : omega ≠ 0) :
    (|(Prediction.curved_path Real.cos Real.sin Dt px py v phi omega a omega_dot).1
        - (Prediction.linear_path Real.cos Real.sin Dt px py v phi a omega_dot).1|
        ≤ |v| * |omega| * Dt ^ 2 / 2)
      ∧ (|(Prediction.curved_path Real.cos Real.sin Dt px py v phi omega a omega_dot).2.1
          - (Prediction.linear_path Real.cos Real.sin Dt px py v phi a omega_dot).2.1|
          ≤ |v| * |omega| * Dt ^ 2 / 2)
      ∧ ((Prediction.curved_path Real.cos Real.sin Dt px py v phi omega a omega_dot).2.2
          - (Prediction.linear_path Real.cos Real.sin Dt px py v phi a omega_dot).2.2
          = omega * Dt)
      ∧ (|omega| = 0.001 →
          |(Prediction.curved_path Real.cos Real.sin Dt px py v phi omega a omega_dot).1
              - (Prediction.linear_path Real.cos Real.sin Dt px py v phi a omega_dot).1|
              ≤ 0.0005 * |v| * Dt ^ 2
            ∧ |(Prediction.curved_path Real.cos Real.sin Dt px py v phi omega a omega_dot).2.1
                - (Prediction.linear_path Real.cos Real.sin Dt px py v phi a omega_dot).2.1|
                ≤ 0.0005 * |v| * Dt ^ 2)
      ∧ Filter.Tendsto
          (fun w => (Prediction.curved_path Real.cos Real.sin Dt px py v phi w a omega_dot).1
            - (Prediction.linear_path Real.cos Real.sin Dt px py v phi a omega_dot).1)
          (nhdsWithin 0 {w | w ≠ 0}) (nhds 0)
      ∧ Filter.Tendsto
          (fun w => (Prediction.curved_path Real.cos Real.sin Dt px py v phi w a omega_dot).2.1
            - (Prediction.linear_path Real.cos Real.sin Dt px py v phi a omega_dot).2.1)
          (nhdsWithin 0 {w | w ≠ 0}) (nhds 0) := by
  have bx : ∀ w : ℝ, w ≠ 0 →
      |(Prediction.curved_path Real.cos Real.sin Dt px py v phi w a omega_dot).1
        - (Prediction.linear_path Real.cos Real.sin Dt px py v phi a omega_dot).1|
        ≤ |v| * |w| * Dt ^ 2 / 2 := by
    intro w hw
    have e : (Prediction.curved_path Real.cos Real.sin Dt px py v phi w a omega_dot).1
        - (Prediction.linear_path Real.cos Real.sin Dt px py v phi a omega_dot).1
        = v * (Real.sin (phi + w * Dt) - Real.sin phi - w * Dt * Real.cos phi) / w := by
      simp only [Prediction.curved_path, Prediction.linear_path]
      field_simp
      ring
    rw [e, abs_div, abs_mul, div_le_iff₀ (abs_pos.2 hw)]
    have hT := sin_taylor phi (w * Dt)
    have hv := abs_nonneg v
    have hsq : (w * Dt) ^ 2 = |w| * |w| * Dt ^ 2 := by rw [mul_pow, ← sq_abs w]; ring
    nlinarith [mul_le_mul_of_nonneg_left hT hv]
  have by_ : ∀ w : ℝ, w ≠ 0 →
      |(Prediction.curved_path Real.cos Real.sin Dt px py v phi w a omega_dot).2.1
        - (Prediction.linear_path Real.cos Real.sin Dt px py v phi a omega_dot).2.1|
        ≤ |v| * |w| * Dt ^ 2 / 2 := by
    intro w hw
    have e : (Prediction.curved_path Real.cos Real.sin Dt px py v phi w a omega_dot).2.1
        - (Prediction.linear_path Real.cos Real.sin Dt px py v phi a omega_dot).2.1
        = -(v * (Real.cos (phi + w * Dt) - Real.cos phi + w * Dt * Real.sin phi)) / w := by
      simp only [Prediction.curved_path, Prediction.linear_path]
      field_simp
      ring
    rw [e, abs_div, abs_neg, abs_mul, div_le_iff₀ (abs_pos.2 hw)]
    have hT := cos_taylor phi (w * Dt)
    have hv := abs_nonneg v
    have hsq : (w * Dt) ^ 2 = |w| * |w| * Dt ^ 2 := by rw [mul_pow, ← sq_abs w]; ring
    nlinarith [mul_le_mul_of_nonneg_left hT hv]
  have hlim : Filter.Tendsto (fun w : ℝ => |v| * |w| * Dt ^ 2 / 2)
      (nhdsWithin 0 {w | w ≠ 0}) (nhds 0) := by
    have hc : Continuous (fun w : ℝ => |v| * |w| * Dt ^ 2 / 2) := by continuity
    have := hc.tendsto 0
    simp only [abs_zero, mul_zero, zero_mul, zero_div] at this
    exact this.mono_left nhdsWithin_le_nhds
  refine ⟨bx omega h, by_ omega h, ?_, ?_, ?_, ?_⟩
  · simp only [Prediction.curved_path, Prediction.linear_path]
    ring
  · intro h1
    have h2 := bx omega h
    have h3 := by_ omega h
    rw [h1] at h2 h3
    constructor
    · calc _ ≤ |v| * 0.001 * Dt ^ 2 / 2 := h2
        _ = 0.0005 * |v| * Dt ^ 2 := by ring
    · calc _ ≤ |v| * 0.001 * Dt ^ 2 / 2 := h3
        _ = 0.0005 * |v| * Dt ^ 2 := by ring
  · apply squeeze_zero_norm' _ hlim
    filter_upwards [self_mem_nhdsWithin] with w hw
    simpa [Real.norm_eq_abs] using bx w hw
  · apply squeeze_zero_norm' _ hlim
    filter_upwards [self_mem_nhdsWithin] with w hw
    simpa [Real.norm_eq_abs] using by_ w hw

/-- Witness of C10 (amended): unit speed, unit yaw rate, one second. -/
theorem curved_path_near_linear_path_witness :
    (1 : ℝ) ≠ 0
      ∧ |(Prediction.curved_path Real.cos Real.sin 1 0 0 1 0 1 0 0).1
          - (Prediction.linear_path Real.cos Real.sin 1 0 0 1 0 0 0).1|
          ≤ |(1 : ℝ)| * |(1 : ℝ)| * (1 : ℝ) ^ 2 / 2 :=
  ⟨one_ne_zero, (curved_path_near_linear_path 1 0 0 1 0 0 0 1 one_ne_zero).1⟩

/-! ## The predicted covariance -/

/-- Row 3 of a predicted sigma point whose yaw rate is 0. -/
theorem Prediction.column_three_of_zero (cos sin : α → α) (Dt : α) (X : MatrixXd α) (i : Nat)
    (h : X.coeff 4 i = 0) :
    Prediction.column cos sin Dt X i 3 = X.coeff 3 i + 0.5 * Dt * Dt * X.coeff 6 i := by
  have h0 : |(0 : α)| < 0.001 := by norm_num
  simp only [Prediction.column, h, if_pos h0, Prediction.linear_path]
  rfl

/-- With the example helpers and a spread of 6 on the heading alone, the
heading row of the predicted sigma points is 6 in column 4, -6 in column 11
and 0 elsewhere. -/
theorem example_heading_row (cos sin : α → α) (Dt : α) (x : Fin 5 → α) (old : Fin 5 → Nat → α)
    (h3 : x 3 = 0) (h4 : x 4 = 0) (i : Nat) (hi : i < 15) :
    Prediction.Xsig_pred cos sin Dt (exampleJoint x (fun j => if j = 3 then 6 else 0)) old 3 i
      = if i = 4 then 6 else if i = 11 then -6 else 0 := by
  have hc : (exampleJoint x (fun j => if j = 3 then (6 : α) else 0)).cols = 15 := rfl
  have h4i : (exampleJoint x (fun j => if j = 3 then (6 : α) else 0)).coeff 4 i = 0 := by
    simp [exampleJoint, h4]
  simp only [Prediction.Xsig_pred, hc, if_pos hi, Prediction.column_three_of_zero _ _ _ _ _ h4i]
  simp [exampleJoint, h3]

/-- With the example helpers and a spread of 6 on the heading alone,
`Prediction` returns normally with predicted heading 0, heading difference 6
for sigma point 4 and heading variance 12. -/
theorem example_heading_Prediction (cos sin toFloat : α → α) (lidar_fails : Bool) (s : UKF α)
    (Dt : α) (h3 : s.x_ 3 = 0) (h4 : s.x_ 4 = 0) :
    (Prediction (exampleEnv cos sin toFloat (fun j => if j = 3 then 6 else 0) lidar_fails)
        s Dt).error = none
      ∧ (Prediction (exampleEnv cos sin toFloat (fun j => if j = 3 then 6 else 0) lidar_fails)
          s Dt).state.x_ 3 = 0
      ∧ (Prediction (exampleEnv cos sin toFloat (fun j => if j = 3 then 6 else 0) lidar_fails)
          s Dt).state.Xsig_pred_ 3 4 = 6
      ∧ (Prediction (exampleEnv cos sin toFloat (fun j => if j = 3 then 6 else 0) lidar_fails)
          s Dt).state.Sigma_ 3 3 = 12 := by
  rw [Prediction_of_ok _ s Dt (exampleJoint s.x_ (fun j => if j = 3 then 6 else 0)) rfl]
  simp only [Outcome.error, Outcome.state]
  have hrow := example_heading_row cos sin Dt s.x_ s.Xsig_pred_ h3 h4
  have hx : Prediction.x_pred (exampleJoint s.x_ (fun j => if j = 3 then (6 : α) else 0))
      (Prediction.Xsig_pred
        (exampleEnv cos sin toFloat (fun j => if j = 3 then 6 else 0) lidar_fails).cos
        (exampleEnv cos sin toFloat (fun j => if j = 3 then 6 else 0) lidar_fails).sin Dt
        (exampleJoint s.x_ (fun j => if j = 3 then (6 : α) else 0)) s.Xsig_pred_) 3 = 0 := by
    unfold Prediction.x_pred
    have hc : (exampleJoint s.x_ (fun j => if j = 3 then (6 : α) else 0)).cols = 15 := rfl
    have hr : (exampleJoint s.x_ (fun j => if j = 3 then (6 : α) else 0)).rows = 7 := rfl
    rw [hc, hr]
    rw [Finset.sum_congr rfl (fun i hi => by
      rw [show (exampleEnv cos sin toFloat (fun j => if j = 3 then (6 : α) else 0)
        lidar_fails).cos = cos from rfl,
        show (exampleEnv cos sin toFloat (fun j => if j = 3 then (6 : α) else 0)
        lidar_fails).sin = sin from rfl, hrow i (Finset.mem_range.1 hi)])]
    simp [Finset.sum_range_succ, Prediction.w_m]
  refine ⟨trivial, hx, hrow 4 (by norm_num), ?_⟩
  unfold Prediction.Sigma_pred Prediction.diff
  rw [hx]
  have hc : (exampleJoint s.x_ (fun j => if j = 3 then (6 : α) else 0)).cols = 15 := rfl
  have hr : (exampleJoint s.x_ (fun j => if j = 3 then (6 : α) else 0)).rows = 7 := rfl
  rw [hc, hr]
  rw [Finset.sum_congr rfl (fun i hi => by
    rw [show (exampleEnv cos sin toFloat (fun j => if j = 3 then (6 : α) else 0)
      lidar_fails).cos = cos from rfl,
      show (exampleEnv cos sin toFloat (fun j => if j = 3 then (6 : α) else 0)
      lidar_fails).sin = sin from rfl, hrow i (Finset.mem_range.1 hi)])]
  simp [Finset.sum_range_succ, Prediction.w_c, Prediction.lambda]
  norm_num

/-- The example filter: heading, yaw rate and heading variance. -/
theorem exampleFilter_heading (env : Env α) (laser_on : Bool) :
    (exampleFilter env laser_on).x_ 3 = 0
      ∧ (exampleFilter env laser_on).x_ 4 = 0
      ∧ (exampleFilter env laser_on).Sigma_ 3 3 = env.inf_variance := by
  unfold exampleFilter
  rw [ProcessMeasurement_uninitialized env _ _ rfl,
    Init_laser env _ ⟨0, .LASER, readings [1.0, 1.0]⟩ rfl readings_one_one_ne]
  exact ⟨rfl, rfl, rfl⟩

/-- C4, the claim as stated fails: with sigma points spread by 6 rad on the
heading, the heading component of `Xsig_pred_.col(4) - x_pred` that
`Prediction` multiplies into the covariance is 6, outside `(-pi, pi]`, and the
resulting heading variance is `(6 * 6 + 6 * 6) / 6 = 12`. -/
theorem Prediction_heading_difference_not_normalized :
    Prediction.diff
        (Prediction (exampleEnv Real.cos Real.sin float32 (fun j => if j = 3 then 6 else 0) false) (exampleFilter (exampleEnv Real.cos Real.sin float32 (fun j => if j = 3 then 6 else 0) false) true) 0.1).state.Xsig_pred_
        (Prediction (exampleEnv Real.cos Real.sin float32 (fun j => if j = 3 then 6 else 0) false) (exampleFilter (exampleEnv Real.cos Real.sin float32 (fun j => if j = 3 then 6 else 0) false) true) 0.1).state.x_ 4 3 = 6
      ∧ ¬ (-Real.pi < Prediction.diff
            (Prediction (exampleEnv Real.cos Real.sin float32 (fun j => if j = 3 then 6 else 0) false) (exampleFilter (exampleEnv Real.cos Real.sin float32 (fun j => if j = 3 then 6 else 0) false) true) 0.1).state.Xsig_pred_
            (Prediction (exampleEnv Real.cos Real.sin float32 (fun j => if j = 3 then 6 else 0) false) (exampleFilter (exampleEnv Real.cos Real.sin float32 (fun j => if j = 3 then 6 else 0) false) true) 0.1).state.x_ 4 3
          ∧ Prediction.diff
            (Prediction (exampleEnv Real.cos Real.sin float32 (fun j => if j = 3 then 6 else 0) false) (exampleFilter (exampleEnv Real.cos Real.sin float32 (fun j => if j = 3 then 6 else 0) false) true) 0.1).state.Xsig_pred_
            (Prediction (exampleEnv Real.cos Real.sin float32 (fun j => if j = 3 then 6 else 0) false) (exampleFilter (exampleEnv Real.cos Real.sin float32 (fun j => if j = 3 then 6 else 0) false) true) 0.1).state.x_ 4 3 ≤ Real.pi)
      ∧ (Prediction (exampleEnv Real.cos Real.sin float32 (fun j => if j = 3 then 6 else 0) false) (exampleFilter (exampleEnv Real.cos Real.sin float32 (fun j => if j = 3 then 6 else 0) false) true) 0.1).state.Sigma_ 3 3 = 12 := by
  have hF := exampleFilter_heading (exampleEnv Real.cos Real.sin float32 (fun j => if j = 3 then 6 else 0) false) true
  have hP := example_heading_Prediction Real.cos Real.sin float32 false
    (exampleFilter (exampleEnv Real.cos Real.sin float32 (fun j => if j = 3 then 6 else 0) false) true) 0.1 hF.1 hF.2.1
  have hd : Prediction.diff
        (Prediction (exampleEnv Real.cos Real.sin float32 (fun j => if j = 3 then 6 else 0) false) (exampleFilter (exampleEnv Real.cos Real.sin float32 (fun j => if j = 3 then 6 else 0) false) true) 0.1).state.Xsig_pred_
        (Prediction (exampleEnv Real.cos Real.sin float32 (fun j => if j = 3 then 6 else 0) false) (exampleFilter (exampleEnv Real.cos Real.sin float32 (fun j => if j = 3 then 6 else 0) false) true) 0.1).state.x_ 4 3 = 6 := by
    unfold Prediction.diff
    rw [hP.2.1, hP.2.2.1, sub_zero]
  refine ⟨hd, ?_, hP.2.2.2⟩
  rw [hd]
  intro h
  have := Real.pi_le_four
  linarith [h.2]

/-- C4, amended.  After a normal return of `GenerateJointSigmaPoints` the
covariance that `Prediction` stores is the weighted sum of the outer products
of the differences `Xsig_pred_.col(i) - x_` as they are, the heading row
included. -/
theorem Prediction_Sigma_of_differences (env : Env α) (s : UKF α) (Dt : α) (X : MatrixXd α)
    (h : env.GenerateJointSigmaPoints s.x_ s.Sigma_ s.std_a_ s.std_yawdd_ s.Xsig_joint_ = .ok X)
    (r c : Fin 5) :
    (Prediction env s Dt).state.Sigma_ r c
      = ∑ i ∈ Finset.range X.cols,
          Prediction.w_c env.kappa env.beta X.rows i
            * ((Prediction env s Dt).state.Xsig_pred_ r i - (Prediction env s Dt).state.x_ r)
            * ((Prediction env s Dt).state.Xsig_pred_ c i - (Prediction env s Dt).state.x_ c) := by
  rw [Prediction_of_ok env s Dt X h]
  rfl

/-- Witness of C4 (amended): the example helpers and the example filter. -/
theorem Prediction_Sigma_of_differences_witness :
    ((exampleEnv Real.cos Real.sin float32 (fun j => if j = 3 then 6 else 0) false)).GenerateJointSigmaPoints (exampleFilter (exampleEnv Real.cos Real.sin float32 (fun j => if j = 3 then 6 else 0) false) true).x_ (exampleFilter (exampleEnv Real.cos Real.sin float32 (fun j => if j = 3 then 6 else 0) false) true).Sigma_
        (exampleFilter (exampleEnv Real.cos Real.sin float32 (fun j => if j = 3 then 6 else 0) false) true).std_a_ (exampleFilter (exampleEnv Real.cos Real.sin float32 (fun j => if j = 3 then 6 else 0) false) true).std_yawdd_
        (exampleFilter (exampleEnv Real.cos Real.sin float32 (fun j => if j = 3 then 6 else 0) false) true).Xsig_joint_
        = .ok (exampleJoint (exampleFilter (exampleEnv Real.cos Real.sin float32 (fun j => if j = 3 then 6 else 0) false) true).x_ (fun j => if j = 3 then 6 else 0))
      ∧ (Prediction (exampleEnv Real.cos Real.sin float32 (fun j => if j = 3 then 6 else 0) false) (exampleFilter (exampleEnv Real.cos Real.sin float32 (fun j => if j = 3 then 6 else 0) false) true) 0.1).state.Sigma_ 3 3
        = ∑ i ∈ Finset.range
              (exampleJoint (exampleFilter (exampleEnv Real.cos Real.sin float32 (fun j => if j = 3 then 6 else 0) false) true).x_ (fun j => if j = 3 then 6 else 0)).cols,
            Prediction.w_c ((exampleEnv Real.cos Real.sin float32 (fun j => if j = 3 then 6 else 0) false)).kappa ((exampleEnv Real.cos Real.sin float32 (fun j => if j = 3 then 6 else 0) false)).beta
                (exampleJoint (exampleFilter (exampleEnv Real.cos Real.sin float32 (fun j => if j = 3 then 6 else 0) false) true).x_ (fun j => if j = 3 then 6 else 0)).rows i
              * ((Prediction (exampleEnv Real.cos Real.sin float32 (fun j => if j = 3 then 6 else 0) false) (exampleFilter (exampleEnv Real.cos Real.sin float32 (fun j => if j = 3 then 6 else 0) false) true) 0.1).state.Xsig_pred_ 3 i
                - (Prediction (exampleEnv Real.cos Real.sin float32 (fun j => if j = 3 then 6 else 0) false) (exampleFilter (exampleEnv Real.cos Real.sin float32 (fun j => if j = 3 then 6 else 0) false) true) 0.1).state.x_ 3)
              * ((Prediction (exampleEnv Real.cos Real.sin float32 (fun j => if j = 3 then 6 else 0) false) (exampleFilter (exampleEnv Real.cos Real.sin float32 (fun j => if j = 3 then 6 else 0) false) true) 0.1).state.Xsig_pred_ 3 i
                - (Prediction (exampleEnv Real.cos Real.sin float32 (fun j => if j = 3 then 6 else 0) false) (exampleFilter (exampleEnv Real.cos Real.sin float32 (fun j => if j = 3 then 6 else 0) false) true) 0.1).state.x_ 3) :=
  ⟨rfl, Prediction_Sigma_of_differences (exampleEnv Real.cos Real.sin float32 (fun j => if j = 3 then 6 else 0) false) (exampleFilter (exampleEnv Real.cos Real.sin float32 (fun j => if j = 3 then 6 else 0) false) true) 0.1 _ rfl 3 3⟩

/-! ## Numerical failure -/

/-- A call that reports no failure returned normally. -/
theorem Outcome.eq_done_of_error_none {σ : Type} (o : Outcome σ) (h : o.error = none) :
    o = .done o.state := by
  cases o with
  | done s => rfl
  | failed e s => simp [Outcome.error] at h

/-- C11.  A LASER first measurement at the origin (`px*px + py*py == 0`): after
`Init` the five entries of the mean are 0 and the covariance is `inf_variance`
times the identity, that is `inf_variance` on the diagonal and 0 elsewhere. -/
theorem Init_laser_origin (env : Env α) (s : UKF α) (pack : MeasurementPackage α)
    (hs : pack.sensor_type_ = .LASER)
    (h : pack.raw_measurements_ 0 * pack.raw_measurements_ 0
      + pack.raw_measurements_ 1 * pack.raw_measurements_ 1 = 0) :
    (∀ i : Fin 5, (Init env s pack).x_ i = 0)
      ∧ (Init env s pack).Sigma_ = scaledIdentity env.inf_variance
      ∧ (∀ i j : Fin 5,
          (Init env s pack).Sigma_ i j = if i = j then env.inf_variance else 0) := by
  have hI : Init env s pack =
      { s with x_ := ![0, 0, 0, 0, 0], Sigma_ := scaledIdentity env.inf_variance } := by
    unfold Init
    rw [hs]
    simp only [if_pos h, commaInitVec_five]
  rw [hI]
  refine ⟨?_, rfl, ?_⟩
  · intro i
    fin_cases i <;> rfl
  · intro i j
    by_cases hij : i = j <;> simp [scaledIdentity, hij]

/-- Witness of C11: the LASER measurement `[0, 0]` on a freshly constructed
filter. -/
theorem Init_laser_origin_witness :
    ((⟨0, .LASER, readings [0, 0]⟩ : MeasurementPackage ℝ).sensor_type_ = .LASER
        ∧ (readings [0, 0] 0 : ℝ) * readings [0, 0] 0 + readings [0, 0] 1 * readings [0, 0] 1 = 0)
      ∧ (∀ i : Fin 5,
          (Init (exampleEnv Real.cos Real.sin float32 (fun _ => 0) false) (ctor rawObject)
            ⟨0, .LASER, readings [0, 0]⟩).x_ i = 0)
      ∧ (Init (exampleEnv Real.cos Real.sin float32 (fun _ => 0) false) (ctor rawObject)
            ⟨0, .LASER, readings [0, 0]⟩).Sigma_ = scaledIdentity 1000000 :=
  ⟨⟨rfl, by simp [readings]⟩,
    (Init_laser_origin (exampleEnv Real.cos Real.sin float32 (fun _ => 0) false) (ctor rawObject)
      ⟨0, .LASER, readings [0, 0]⟩ rfl (by simp [readings])).1,
    (Init_laser_origin (exampleEnv Real.cos Real.sin float32 (fun _ => 0) false) (ctor rawObject)
      ⟨0, .LASER, readings [0, 0]⟩ rfl (by simp [readings])).2.1⟩

/-! ## The transition equations -/

/-- C12.  The predicted sigma point of column `i`: speed `v + Dt*a` and yaw rate
`omega + Dt*omega_dot` in both branches; position and heading by the
straight-line formulas when `|omega| < 0.001` and by the curved-path formulas
otherwise; and whenever the curved-path formulas are used, `|omega|` is at
least 0.001, so the divisor is not 0. -/
theorem Prediction_column_CTRV (cos sin : α → α) (Dt : α) (X : MatrixXd α) (i : Nat) :
    Prediction.column cos sin Dt X i 2 = X.coeff 2 i + Dt * X.coeff 5 i
      ∧ Prediction.column cos sin Dt X i 4 = X.coeff 4 i + Dt * X.coeff 6 i
      ∧ Prediction.column cos sin Dt X i 0
          = (if |X.coeff 4 i| < 0.001 then
              X.coeff 0 i + X.coeff 2 i * cos (X.coeff 3 i) * Dt
                + 0.5 * Dt ^ 2 * cos (X.coeff 3 i) * X.coeff 5 i
            else
              X.coeff 0 i
                + X.coeff 2 i * (sin (X.coeff 3 i + X.coeff 4 i * Dt) - sin (X.coeff 3 i))
                  / X.coeff 4 i
                + 0.5 * Dt ^ 2 * cos (X.coeff 3 i) * X.coeff 5 i)
      ∧ Prediction.column cos sin Dt X i 1
          = (if |X.coeff 4 i| < 0.001 then
              X.coeff 1 i + X.coeff 2 i * sin (X.coeff 3 i) * Dt
                + 0.5 * Dt ^ 2 * sin (X.coeff 3 i) * X.coeff 5 i
            else
              X.coeff 1 i
                + X.coeff 2 i * (cos (X.coeff 3 i) - cos (X.coeff 3 i + X.coeff 4 i * Dt))
                  / X.coeff 4 i
                + 0.5 * Dt ^ 2 * sin (X.coeff 3 i) * X.coeff 5 i)
      ∧ Prediction.column cos sin Dt X i 3
          = (if |X.coeff 4 i| < 0.001 then X.coeff 3 i + 0.5 * Dt ^ 2 * X.coeff 6 i
            else X.coeff 3 i + X.coeff 4 i * Dt + 0.5 * Dt ^ 2 * X.coeff 6 i)
      ∧ (|X.coeff 4 i| < 0.001 ∨ (0.001 ≤ |X.coeff 4 i| ∧ X.coeff 4 i ≠ 0)) := by
  refine ⟨rfl, rfl, ?_, ?_, ?_, ?_⟩
  · show (if |X.coeff 4 i| < 0.001 then
        Prediction.linear_path cos sin Dt (X.coeff 0 i) (X.coeff 1 i) (X.coeff 2 i) (X.coeff 3 i)
          (X.coeff 5 i) (X.coeff 6 i)
      else Prediction.curved_path cos sin Dt (X.coeff 0 i) (X.coeff 1 i) (X.coeff 2 i)
          (X.coeff 3 i) (X.coeff 4 i) (X.coeff 5 i) (X.coeff 6 i)).1 = _
    split <;> simp only [Prediction.linear_path, Prediction.curved_path] <;> ring
  · show (if |X.coeff 4 i| < 0.001 then
        Prediction.linear_path cos sin Dt (X.coeff 0 i) (X.coeff 1 i) (X.coeff 2 i) (X.coeff 3 i)
          (X.coeff 5 i) (X.coeff 6 i)
      else Prediction.curved_path cos sin Dt (X.coeff 0 i) (X.coeff 1 i) (X.coeff 2 i)
          (X.coeff 3 i) (X.coeff 4 i) (X.coeff 5 i) (X.coeff 6 i)).2.1 = _
    split <;> simp only [Prediction.linear_path, Prediction.curved_path] <;> ring
  · show (if |X.coeff 4 i| < 0.001 then
        Prediction.linear_path cos sin Dt (X.coeff 0 i) (X.coeff 1 i) (X.coeff 2 i) (X.coeff 3 i)
          (X.coeff 5 i) (X.coeff 6 i)
      else Prediction.curved_path cos sin Dt (X.coeff 0 i) (X.coeff 1 i) (X.coeff 2 i)
          (X.coeff 3 i) (X.coeff 4 i) (X.coeff 5 i) (X.coeff 6 i)).2.2 = _
    split <;> simp only [Prediction.linear_path, Prediction.curved_path] <;> ring
  · rcases lt_or_le |X.coeff 4 i| 0.001 with hlt | hge
    · exact Or.inl hlt
    · refine Or.inr ⟨hge, ?_⟩
      intro h0
      rw [h0, abs_zero] at hge
      norm_num at hge

/-- C15.  With `Dt = 0` the transition equations return the first five
components of the joint sigma point, in the straight-line branch and in the
curved-path branch, whatever the two noise components are. -/
theorem Prediction_zero_elapsed_time (cos sin : α → α) (X : MatrixXd α) (i : Nat)
    (px py v phi omega a omega_dot : α) :
    (∀ r : Fin 5, Prediction.column cos sin 0 X i r = X.coeff r.val i)
      ∧ Prediction.linear_path cos sin 0 px py v phi a omega_dot = (px, py, phi)
      ∧ Prediction.curved_path cos sin 0 px py v phi omega a omega_dot = (px, py, phi) := by
  have hl : ∀ px py v phi a omega_dot : α,
      Prediction.linear_path cos sin 0 px py v phi a omega_dot = (px, py, phi) := by
    intro px py v phi a omega_dot
    simp [Prediction.linear_path]
  have hc : ∀ px py v phi omega a omega_dot : α,
      Prediction.curved_path cos sin 0 px py v phi omega a omega_dot = (px, py, phi) := by
    intro px py v phi omega a omega_dot
    simp [Prediction.curved_path]
  refine ⟨?_, hl _ _ _ _ _ _, hc _ _ _ _ _ _ _⟩
  intro r
  have hp : (if |X.coeff 4 i| < 0.001 then
        Prediction.linear_path cos sin 0 (X.coeff 0 i) (X.coeff 1 i) (X.coeff 2 i) (X.coeff 3 i)
          (X.coeff 5 i) (X.coeff 6 i)
      else Prediction.curved_path cos sin 0 (X.coeff 0 i) (X.coeff 1 i) (X.coeff 2 i)
          (X.coeff 3 i) (X.coeff 4 i) (X.coeff 5 i) (X.coeff 6 i))
      = (X.coeff 0 i, X.coeff 1 i, X.coeff 3 i) := by
    split
    · exact hl _ _ _ _ _ _
    · exact hc _ _ _ _ _ _ _
  simp only [Prediction.column, hp]
  fin_cases r <;> simp

/-! ## The RADAR first measurement -/

/-- The weights of the radar branch of `Init`: 0 for point 0 and `1/6` for the
other points. -/
theorem Init.w_eq (i : Nat) : (Init.w i : α) = if i = 0 then 0 else 1 / 6 := by
  by_cases h : i = 0
  · simp [Init.w, h, Init.lambda, Init.n_y]
  · simp only [Init.w, if_neg h, Init.lambda, Init.n_y]
    norm_num

/-- After a RADAR first measurement with a range other than 0, `Init` has
stored the moments of the transformed sigma points. -/
theorem Init_radar_eq (env : Env α) (s : UKF α) (pack : MeasurementPackage α)
    (hs : pack.sensor_type_ = .RADAR) (h : pack.raw_measurements_ 0 ≠ 0) :
    Init env s pack =
      { s with
        x_ := fun r =>
          if h : r.val < 3 then
            Init.x3 (Init.Tsigma env.cos env.sin
              (env.GenerateSigmaPoints pack.raw_measurements_ (Init.Qr s))) ⟨r.val, h⟩
          else 0
        Sigma_ := fun r c =>
          if h : r.val < 3 ∧ c.val < 3 then
            Init.Sigma3 (Init.Tsigma env.cos env.sin
              (env.GenerateSigmaPoints pack.raw_measurements_ (Init.Qr s)))
              ⟨r.val, h.1⟩ ⟨c.val, h.2⟩
          else if r = c then env.inf_variance else 0 } := by
  unfold Init
  rw [hs]
  simp only [if_neg h]

/-- C14.  A RADAR first measurement with a range other than 0, for any sigma
points `Ysigma` that `GenerateSigmaPoints` returns: heading and yaw rate of
the mean are 0; position and speed are the weighted mean (weight 0 for point
0, `1/6` for the other six) of the transformed points
`(rho*cos(theta), rho*sin(theta), |rho_dot|)`, so the speed is not negative;
`Sigma_(3,3) = Sigma_(4,4) = inf_variance`; the top-left 3x3 block is the
sample covariance of the transformed points with the same weights; every
other entry of `Sigma_` is 0. -/
theorem Init_radar (env : Env α) (s : UKF α) (pack : MeasurementPackage α)
    (Ysigma : Fin 3 → Fin 7 → α)
    (hs : pack.sensor_type_ = .RADAR) (h : pack.raw_measurements_ 0 ≠ 0)
    (hY : env.GenerateSigmaPoints pack.raw_measurements_ (Init.Qr s) = Ysigma) :
    ((Init env s pack).x_ 3 = 0 ∧ (Init env s pack).x_ 4 = 0)
      ∧ ((Init env s pack).x_ 0
            = ∑ i : Fin 7, (if i.val = 0 then 0 else 1 / 6) * (Ysigma 0 i * env.cos (Ysigma 1 i))
          ∧ (Init env s pack).x_ 1
            = ∑ i : Fin 7, (if i.val = 0 then 0 else 1 / 6) * (Ysigma 0 i * env.sin (Ysigma 1 i))
          ∧ (Init env s pack).x_ 2
            = ∑ i : Fin 7, (if i.val = 0 then 0 else 1 / 6) * |Ysigma 2 i|)
      ∧ 0 ≤ (Init env s pack).x_ 2
      ∧ ((Init env s pack).Sigma_ 3 3 = env.inf_variance
          ∧ (Init env s pack).Sigma_ 4 4 = env.inf_variance)
      ∧ (∀ r c : Fin 3,
          (Init env s pack).Sigma_ (Fin.castLE (by norm_num) r) (Fin.castLE (by norm_num) c)
            = ∑ i : Fin 7, (if i.val = 0 then 0 else 1 / 6)
                * (![Ysigma 0 i * env.cos (Ysigma 1 i), Ysigma 0 i * env.sin (Ysigma 1 i),
                      |Ysigma 2 i|] r
                    - (Init env s pack).x_ (Fin.castLE (by norm_num) r))
                * (![Ysigma 0 i * env.cos (Ysigma 1 i), Ysigma 0 i * env.sin (Ysigma 1 i),
                      |Ysigma 2 i|] c
                    - (Init env s pack).x_ (Fin.castLE (by norm_num) c)))
      ∧ (∀ r c : Fin 5, ¬ (r.val < 3 ∧ c.val < 3) → r ≠ c → (Init env s pack).Sigma_ r c = 0) := by
  rw [Init_radar_eq env s pack hs h, hY]
  have hx : ∀ r : Fin 3,
      Init.x3 (Init.Tsigma env.cos env.sin Ysigma) r
        = ∑ i : Fin 7, (if i.val = 0 then 0 else 1 / 6)
            * ![Ysigma 0 i * env.cos (Ysigma 1 i), Ysigma 0 i * env.sin (Ysigma 1 i),
                |Ysigma 2 i|] r := by
    intro r
    simp only [Init.x3, Init.w_eq, Init.Tsigma]
  refine ⟨⟨rfl, rfl⟩, ⟨?_, ?_, ?_⟩, ?_, ⟨rfl, rfl⟩, ?_, ?_⟩
  · exact hx 0
  · exact hx 1
  · exact hx 2
  · show 0 ≤ Init.x3 (Init.Tsigma env.cos env.sin Ysigma) 2
    rw [hx 2]
    apply Finset.sum_nonneg
    intro i _
    apply mul_nonneg
    · split <;> norm_num
    · exact abs_nonneg _
  · intro r c
    simp only [Fin.coe_castLE, Fin.eta, Init.Sigma3, Init.w_eq, hx, dif_pos r.isLt,
      dif_pos c.isLt, dif_pos (And.intro r.isLt c.isLt)]
    rfl
  · intro r c hrc hne
    show (if h : r.val < 3 ∧ c.val < 3 then _ else if r = c then env.inf_variance else 0) = 0
    rw [dif_neg hrc, if_neg hne]

/-- Witness of C14: the RADAR measurement `[1.0, 0.5, 2.0]` on a freshly
constructed filter. -/
theorem Init_radar_witness :
    ((⟨0, .RADAR, readings [1.0, 0.5, 2.0]⟩ : MeasurementPackage ℝ).sensor_type_ = .RADAR
        ∧ (readings [1.0, 0.5, 2.0] 0 : ℝ) ≠ 0)
      ∧ 0 ≤ (Init (exampleEnv Real.cos Real.sin float32 (fun _ => 0) false) (ctor rawObject)
            ⟨0, .RADAR, readings [1.0, 0.5, 2.0]⟩).x_ 2
      ∧ (Init (exampleEnv Real.cos Real.sin float32 (fun _ => 0) false) (ctor rawObject)
            ⟨0, .RADAR, readings [1.0, 0.5, 2.0]⟩).Sigma_ 4 4 = 1000000 :=
  ⟨⟨rfl, by norm_num [readings]⟩,
    (Init_radar (exampleEnv Real.cos Real.sin float32 (fun _ => 0) false) (ctor rawObject)
      ⟨0, .RADAR, readings [1.0, 0.5, 2.0]⟩ _ rfl (by norm_num [readings]) rfl).2.2.1,
    (Init_radar (exampleEnv Real.cos Real.sin float32 (fun _ => 0) false) (ctor rawObject)
      ⟨0, .RADAR, readings [1.0, 0.5, 2.0]⟩ _ rfl (by norm_num [readings]) rfl).2.2.2.1.2⟩

/-! ## The recombination -/

/-- C13.  After a normal return of `GenerateJointSigmaPoints` with `n` rows and
`2n + 1` columns, `Prediction` stores the weighted mean of the predicted sigma
points and the weighted sum of the outer products of their differences to
that mean; the covariance weights equal the mean weights `1/(2*(lambda+n))`
for every point but the first, and `w_c[0] = w_m[0] + (1 - alpha_sq + beta)`
with `w_m[0] = lambda/(lambda+n)`, `alpha_sq = (lambda+n)/(n+kappa)` and
`lambda = 3 - n`. -/
theorem Prediction_recombination (env : Env α) (s : UKF α) (Dt : α) (X : MatrixXd α)
    (h : env.GenerateJointSigmaPoints s.x_ s.Sigma_ s.std_a_ s.std_yawdd_ s.Xsig_joint_ = .ok X)
    (hc : X.cols = 2 * X.rows + 1) :
    (∀ r : Fin 5,
        (Prediction env s Dt).state.x_ r
          = ∑ i ∈ Finset.range (2 * X.rows + 1),
              Prediction.w_m X.rows i * (Prediction env s Dt).state.Xsig_pred_ r i)
      ∧ (∀ r c : Fin 5,
          (Prediction env s Dt).state.Sigma_ r c
            = ∑ i ∈ Finset.range (2 * X.rows + 1),
                Prediction.w_c env.kappa env.beta X.rows i
                  * ((Prediction env s Dt).state.Xsig_pred_ r i - (Prediction env s Dt).state.x_ r)
                  * ((Prediction env s Dt).state.Xsig_pred_ c i
                    - (Prediction env s Dt).state.x_ c))
      ∧ (∀ i : Nat, 1 ≤ i →
          Prediction.w_c env.kappa env.beta X.rows i = Prediction.w_m X.rows i
            ∧ Prediction.w_m X.rows i
              = 1 / (2 * (Prediction.lambda X.rows + (X.rows : α))))
      ∧ Prediction.w_c env.kappa env.beta X.rows 0
          = Prediction.w_m X.rows 0 + (1 - Prediction.alpha_sq env.kappa X.rows + env.beta)
      ∧ Prediction.w_m X.rows 0
          = Prediction.lambda X.rows / (Prediction.lambda X.rows + (X.rows : α))
      ∧ Prediction.alpha_sq env.kappa X.rows
          = (Prediction.lambda X.rows + (X.rows : α)) / ((X.rows : α) + env.kappa)
      ∧ (Prediction.lambda X.rows : α) = 3 - (X.rows : α) := by
  rw [Prediction_of_ok env s Dt X h]
  simp only [Outcome.state]
  refine ⟨?_, ?_, ?_, ?_, ?_, rfl, ?_⟩
  · intro r
    rw [← hc]
    rfl
  · intro r c
    rw [← hc]
    rfl
  · intro i hi
    have h0 : i ≠ 0 := by omega
    simp only [Prediction.w_c, Prediction.w_m, if_neg h0, Prediction.lambda_add]
    refine ⟨trivial, ?_⟩
    norm_num
  · simp [Prediction.w_c]
  · simp [Prediction.w_m]
  · simp [Prediction.lambda]

/-- Witness of C13: the example helpers (7 rows, 15 columns) and the example
filter. -/
theorem Prediction_recombination_witness :
    ((exampleEnv Real.cos Real.sin float32 (fun _ => 0) false).GenerateJointSigmaPoints
          (exampleFilter (exampleEnv Real.cos Real.sin float32 (fun _ => 0) false) true).x_
          (exampleFilter (exampleEnv Real.cos Real.sin float32 (fun _ => 0) false) true).Sigma_
          (exampleFilter (exampleEnv Real.cos Real.sin float32 (fun _ => 0) false) true).std_a_
          (exampleFilter (exampleEnv Real.cos Real.sin float32 (fun _ => 0) false) true).std_yawdd_
          (exampleFilter (exampleEnv Real.cos Real.sin float32 (fun _ => 0) false)
            true).Xsig_joint_
        = .ok (exampleJoint
            (exampleFilter (exampleEnv Real.cos Real.sin float32 (fun _ => 0) false) true).x_
            (fun _ => 0))
      ∧ (exampleJoint
            (exampleFilter (exampleEnv Real.cos Real.sin float32 (fun _ => 0) false) true).x_
            (fun _ => (0 : ℝ))).cols
          = 2 * (exampleJoint
            (exampleFilter (exampleEnv Real.cos Real.sin float32 (fun _ => 0) false) true).x_
            (fun _ => (0 : ℝ))).rows + 1)
      ∧ (Prediction (exampleEnv Real.cos Real.sin float32 (fun _ => 0) false)
            (exampleFilter (exampleEnv Real.cos Real.sin float32 (fun _ => 0) false) true)
            0.1).state.x_ 0
          = ∑ i ∈ Finset.range (2 * 7 + 1),
              Prediction.w_m 7 i
                * (Prediction (exampleEnv Real.cos Real.sin float32 (fun _ => 0) false)
                    (exampleFilter (exampleEnv Real.cos Real.sin float32 (fun _ => 0) false) true)
                    0.1).state.Xsig_pred_ 0 i :=
  ⟨⟨rfl, rfl⟩,
    (Prediction_recombination (exampleEnv Real.cos Real.sin float32 (fun _ => 0) false)
      (exampleFilter (exampleEnv Real.cos Real.sin float32 (fun _ => 0) false) true) 0.1
      (exampleJoint
        (exampleFilter (exampleEnv Real.cos Real.sin float32 (fun _ => 0) false) true).x_
        (fun _ => 0)) rfl rfl).1 0⟩

/-- C16, amended.  Read in exact arithmetic, the covariance that `Prediction`
stores is symmetric, whatever the sign of the first covariance weight; with
seven rows, `kappa = 0` and `beta = 0` that weight is `-16/21`. -/
theorem Prediction_Sigma_symmetric (env : Env α) (s s2 : UKF α) (Dt : α)
    (h : Prediction env s Dt = .done s2) :
    (∀ i j : Fin 5, s2.Sigma_ i j = s2.Sigma_ j i)
      ∧ Prediction.w_c (0 : α) 0 7 0 = -16 / 21 := by
  constructor
  · intro i j
    cases hg : env.GenerateJointSigmaPoints s.x_ s.Sigma_ s.std_a_ s.std_yawdd_ s.Xsig_joint_ with
    | error e =>
      rw [Prediction_of_error env s Dt e hg] at h
      cases h
    | ok X =>
      rw [Prediction_of_ok env s Dt X hg] at h
      injection h with h
      subst h
      show Prediction.Sigma_pred _ _ _ _ _ i j = Prediction.Sigma_pred _ _ _ _ _ j i
      unfold Prediction.Sigma_pred
      apply Finset.sum_congr rfl
      intro k _
      ring
  · simp only [Prediction.w_c, Prediction.w_m, Prediction.alpha_sq, Prediction.lambda, if_true]
    norm_num

/-- Witness of C16 (amended): the example helpers and the example filter. -/
theorem Prediction_Sigma_symmetric_witness :
    Prediction (exampleEnv Real.cos Real.sin float32 (fun j => if j = 3 then 6 else 0) false)
        (exampleFilter
          (exampleEnv Real.cos Real.sin float32 (fun j => if j = 3 then 6 else 0) false) true)
        0.1
      = .done
        (Prediction (exampleEnv Real.cos Real.sin float32 (fun j => if j = 3 then 6 else 0) false)
          (exampleFilter
            (exampleEnv Real.cos Real.sin float32 (fun j => if j = 3 then 6 else 0) false) true)
          0.1).state
      ∧ (Prediction (exampleEnv Real.cos Real.sin float32 (fun j => if j = 3 then 6 else 0) false)
          (exampleFilter
            (exampleEnv Real.cos Real.sin float32 (fun j => if j = 3 then 6 else 0) false) true)
          0.1).state.Sigma_ 3 4
        = (Prediction
          (exampleEnv Real.cos Real.sin float32 (fun j => if j = 3 then 6 else 0) false)
          (exampleFilter
            (exampleEnv Real.cos Real.sin float32 (fun j => if j = 3 then 6 else 0) false) true)
          0.1).state.Sigma_ 4 3 :=
  ⟨Outcome.eq_done_of_error_none _
      (example_heading_Prediction Real.cos Real.sin float32 false _ _
        (exampleFilter_heading _ true).1 (exampleFilter_heading _ true).2.1).1,
    (Prediction_Sigma_symmetric _ _ _ _
      (Outcome.eq_done_of_error_none _
        (example_heading_Prediction Real.cos Real.sin float32 false _ _
          (exampleFilter_heading _ true).1 (exampleFilter_heading _ true).2.1).1)).1 3 4⟩

/-! ## Rounding to binary64 -/

/-! ## Rounding -/

/-- Rounding to an integer moves a number by at most one half. -/
theorem roundTiesEven_abs_sub_le [FloorRing α] (y : α) :
    |((roundTiesEven y : Int) : α) - y| ≤ 1 / 2 := by
  have h1 := Int.floor_le y
  have h2 := Int.lt_floor_add_one y
  unfold roundTiesEven
  split_ifs with ha hb hc
  · rw [abs_le]; constructor <;> linarith
  · rw [abs_le]; push_cast; constructor <;> linarith
  · rw [abs_le]; push_cast at ha hb; constructor <;> linarith
  · rw [abs_le]; push_cast; push_cast at ha hb; constructor <;> linarith

/-- An integer rounds to itself. -/
theorem roundTiesEven_intCast [FloorRing α] (z : Int) : roundTiesEven (z : α) = z := by
  unfold roundTiesEven
  rw [Int.floor_intCast]
  simp

/-- Rounding down: the fractional part is below one half. -/
theorem roundTiesEven_of_lt [FloorRing α] (y : α) (f : Int) (h1 : (f : α) ≤ y)
    (h2 : y - (f : α) < 1 / 2) : roundTiesEven y = f := by
  have hf : ⌊y⌋ = f := by
    rw [Int.floor_eq_iff]
    constructor
    · exact h1
    · linarith
  unfold roundTiesEven
  rw [hf, if_pos h2]

/-- Rounding up: the fractional part is above one half. -/
theorem roundTiesEven_of_gt [FloorRing α] (y : α) (f : Int) (h1 : 1 / 2 < y - (f : α))
    (h2 : y < (f : α) + 1) : roundTiesEven y = f + 1 := by
  have hf : ⌊y⌋ = f := by
    rw [Int.floor_eq_iff]
    constructor
    · linarith
    · exact h2
  unfold roundTiesEven
  rw [hf, if_neg (not_lt.2 (le_of_lt h1)), if_pos h1]

/-- A tie above an odd integer rounds up to the even one. -/
theorem roundTiesEven_of_tie_odd [FloorRing α] (y : α) (f : Int) (h1 : y = (f : α) + 1 / 2)
    (h2 : f % 2 = 1) : roundTiesEven y = f + 1 := by
  have hf : ⌊y⌋ = f := by
    rw [Int.floor_eq_iff]
    constructor <;> rw [h1] <;> norm_num
  unfold roundTiesEven
  rw [hf]
  have e : y - (f : α) = 1 / 2 := by rw [h1]; ring
  rw [e, if_neg (lt_irrefl _), if_neg (lt_irrefl _), if_neg (by omega)]

/-- A tie above an even integer rounds down to it. -/
theorem roundTiesEven_of_tie_even [FloorRing α] (y : α) (f : Int) (h1 : y = (f : α) + 1 / 2)
    (h2 : f % 2 = 0) : roundTiesEven y = f := by
  have hf : ⌊y⌋ = f := by
    rw [Int.floor_eq_iff]
    constructor <;> rw [h1] <;> norm_num
  unfold roundTiesEven
  rw [hf]
  have e : y - (f : α) = 1 / 2 := by rw [h1]; ring
  rw [e, if_neg (lt_irrefl _), if_neg (lt_irrefl _), if_pos h2]

/-- The value of `float64` from the binade of the argument and its rounded
significand. -/
theorem float64_eval [FloorRing α] (x : α) (e m : Int) (h1 : (2 : α) ^ e ≤ |x|)
    (h2 : |x| < (2 : α) ^ (e + 1)) (hm : roundTiesEven (x / 2 ^ (e - 52)) = m) :
    float64 x = (m : α) * 2 ^ (e - 52) := by
  have hx : x ≠ 0 := by
    intro h0
    rw [h0, abs_zero] at h1
    exact absurd h1 (not_le.2 (by positivity))
  unfold float64
  rw [if_neg hx, log_two_eq_of_bounds |x| e h1 h2, hm]

/-- Zero is a `double`. -/
theorem float64_zero [FloorRing α] : float64 (0 : α) = 0 := by
  simp [float64]

/-- The relative error of `float64` is at most `2^-53`. -/
theorem float64_abs_sub_le [FloorRing α] (x : α) :
    |float64 x - x| ≤ 2 ^ (-53 : Int) * |x| := by
  by_cases hx : x = 0
  · simp [float64, hx]
  · have hpos : 0 < |x| := abs_pos.2 hx
    have hU : (0 : α) < 2 ^ (Int.log 2 |x| - 52) := by positivity
    have hlog : ((2 : ℕ) : α) ^ Int.log 2 |x| ≤ |x| := Int.zpow_log_le_self (by norm_num) hpos
    have hr := roundTiesEven_abs_sub_le (x / 2 ^ (Int.log 2 |x| - 52))
    have e1 : float64 x - x
        = (((roundTiesEven (x / 2 ^ (Int.log 2 |x| - 52)) : Int) : α)
            - x / 2 ^ (Int.log 2 |x| - 52)) * 2 ^ (Int.log 2 |x| - 52) := by
      unfold float64
      rw [if_neg hx]
      field_simp
    rw [e1, abs_mul, abs_of_pos hU]
    have e2 : (2 : α) ^ (Int.log 2 |x| - 52) = 2 ^ Int.log 2 |x| * 2 ^ (-52 : Int) := by
      rw [← zpow_add₀ (by norm_num : (2 : α) ≠ 0)]
      congr 1
    have hlog2 : (2 : α) ^ Int.log 2 |x| ≤ |x| := by simpa using hlog
    rw [e2]
    have h52 : (0 : α) < 2 ^ (-52 : Int) := by positivity
    have e3 : (2 : α) ^ (-53 : Int) = 1 / 2 * 2 ^ (-52 : Int) := by
      rw [show (-53 : Int) = -1 + -52 by norm_num, zpow_add₀ (by norm_num : (2 : α) ≠ 0)]
      norm_num
    rw [e3]
    have hP : (0 : α) < 2 ^ Int.log 2 |x| := by positivity
    calc |((roundTiesEven (x / (2 ^ Int.log 2 |x| * 2 ^ (-52 : Int))) : Int) : α)
            - x / (2 ^ Int.log 2 |x| * 2 ^ (-52 : Int))| * (2 ^ Int.log 2 |x| * 2 ^ (-52 : Int))
        ≤ 1 / 2 * (2 ^ Int.log 2 |x| * 2 ^ (-52 : Int)) := by
          apply mul_le_mul_of_nonneg_right _ (by positivity)
          rw [← e2]; exact hr
      _ ≤ 1 / 2 * 2 ^ (-52 : Int) * |x| := by nlinarith

/-- A number `m * 2^k` whose integer significand `m` is below `2^53` in
absolute value is a `double`. -/
theorem float64_representable [FloorRing α] (m k : Int) (hm0 : m ≠ 0)
    (hm : |m| < 2 ^ 53) : float64 ((m : α) * 2 ^ k) = (m : α) * 2 ^ k := by
  have hmpos : (0 : α) < |(m : α)| := abs_pos.2 (Int.cast_ne_zero.2 hm0)
  have h1m : (1 : α) ≤ |(m : α)| := by
    have : (1 : Int) ≤ |m| := Int.one_le_abs hm0
    have h := (Int.cast_le (R := α)).2 this
    simpa using h
  have hlt : |(m : α)| < 2 ^ (53 : Int) := by
    have h := (Int.cast_lt (R := α)).2 hm
    push_cast at h
    norm_num at h ⊢
    exact h
  have hl0 : 0 ≤ Int.log 2 |(m : α)| :=
    (Int.zpow_le_iff_le_log (b := 2) (by norm_num) hmpos).1 (by simpa using h1m)
  have hl53 : Int.log 2 |(m : α)| < 53 :=
    (Int.lt_zpow_iff_log_lt (b := 2) (by norm_num) hmpos).1 (by simpa using hlt)
  have hle : ((2 : ℕ) : α) ^ Int.log 2 |(m : α)| ≤ |(m : α)| :=
    Int.zpow_log_le_self (by norm_num) hmpos
  have hgt : |(m : α)| < ((2 : ℕ) : α) ^ (Int.log 2 |(m : α)| + 1) :=
    Int.lt_zpow_succ_log_self (by norm_num) _
  obtain ⟨n, hn⟩ : ∃ n : Nat, (n : Int) = 52 - Int.log 2 |(m : α)| :=
    ⟨(52 - Int.log 2 |(m : α)|).toNat, Int.toNat_of_nonneg (by omega)⟩
  have h2k : (0 : α) < 2 ^ k := by positivity
  have habs : |(m : α) * 2 ^ k| = |(m : α)| * 2 ^ k := by
    rw [abs_mul, abs_of_pos h2k]
  have e := float64_eval ((m : α) * 2 ^ k) (Int.log 2 |(m : α)| + k) (m * 2 ^ n)
    (by
      rw [habs, zpow_add₀ (by norm_num : (2 : α) ≠ 0)]
      exact mul_le_mul_of_nonneg_right (by simpa using hle) h2k.le)
    (by
      rw [habs, show Int.log 2 |(m : α)| + k + 1 = (Int.log 2 |(m : α)| + 1) + k by ring,
        zpow_add₀ (by norm_num : (2 : α) ≠ 0)]
      exact mul_lt_mul_of_pos_right (by simpa using hgt) h2k)
    (by
      have e1 : (m : α) * 2 ^ k / 2 ^ (Int.log 2 |(m : α)| + k - 52)
          = ((m * 2 ^ n : Int) : α) := by
        have hexp : Int.log 2 |(m : α)| + k - 52 = k - (n : Int) := by omega
        rw [hexp, zpow_sub₀ (by norm_num : (2 : α) ≠ 0), zpow_natCast]
        push_cast
        field_simp
        ring
      rw [e1, roundTiesEven_intCast])
  rw [e]
  have hexp : Int.log 2 |(m : α)| + k - 52 = k - (n : Int) := by omega
  rw [hexp, zpow_sub₀ (by norm_num : (2 : α) ≠ 0), zpow_natCast]
  push_cast
  field_simp
  ring

/-! ## The weights as stored -/

/-- The number 3 is a `double`. -/
theorem float64_three [FloorRing α] : float64 (3 : α) = 3 := by
  have h : float64 (((3 : Int) : α) * 2 ^ (0 : Int)) = ((3 : Int) : α) * 2 ^ (0 : Int) :=
    float64_representable 3 0 (by norm_num) (by norm_num)
  simpa using h

/-- The `double` nearest to one sixth. -/
theorem float64_sixth [FloorRing α] :
    float64 ((0.5 : α) / 3) = 6004799503160661 / 2 ^ 55 := by
  have h := float64_eval ((0.5 : α) / 3) (-3) 6004799503160661
    (by rw [abs_of_pos (by norm_num)]; norm_num)
    (by rw [abs_of_pos (by norm_num)]; norm_num)
    (roundTiesEven_of_lt _ _ (by norm_num) (by norm_num))
  rw [h]
  norm_num

/-- The `double` nearest to minus four thirds. -/
theorem float64_neg_four_thirds [FloorRing α] :
    float64 ((-4 : α) / 3) = -6004799503160661 / 2 ^ 52 := by
  have h := float64_eval ((-4 : α) / 3) 0 (-6004799503160662 + 1)
    (by rw [abs_of_neg (by norm_num)]; norm_num)
    (by rw [abs_of_neg (by norm_num)]; norm_num)
    (roundTiesEven_of_gt _ _ (by norm_num) (by norm_num))
  rw [h]
  norm_num

/-- The weights that `Prediction` stores: the first is the rounded quotient
`(3 - n) / 3`, the others are the rounded sixth. -/
theorem Prediction.w_m_rounded_float64 [FloorRing α] (n i : Nat) :
    Prediction.w_m_rounded (float64 : α → α) n i
      = if i = 0 then float64 ((3 - (n : α)) / 3) else float64 ((0.5 : α) / 3) := by
  have hl : Prediction.lambda n = 3 - (n : α) := by simp [Prediction.lambda]
  simp only [Prediction.w_m_rounded, Prediction.lambda_add, float64_three]
  rw [hl]

/-- C9, the claim as stated fails: the weights that the code stores are the
`double` values nearest to `-4/3` and `1/6`, and their sum is `1 - 2^-54`,
both for the fifteen weights of `Prediction` with seven rows and for the seven
weights of `Init`. -/
theorem stored_mean_weights_sum :
    ∑ i ∈ Finset.range (2 * 7 + 1), Prediction.w_m_rounded (float64 : ℚ → ℚ) 7 i
        = 1 - 1 / 2 ^ 54
      ∧ ∑ i ∈ Finset.range 7, Init.w_rounded (float64 : ℚ → ℚ) i = 1 - 1 / 2 ^ 54
      ∧ ∑ i ∈ Finset.range (2 * 7 + 1), Prediction.w_m_rounded (float64 : ℚ → ℚ) 7 i ≠ 1
      ∧ ∑ i ∈ Finset.range 7, Init.w_rounded (float64 : ℚ → ℚ) i ≠ 1 := by
  have h1 : ∑ i ∈ Finset.range (2 * 7 + 1), Prediction.w_m_rounded (float64 : ℚ → ℚ) 7 i
      = 1 - 1 / 2 ^ 54 := by
    simp only [Prediction.w_m_rounded_float64, Finset.sum_range_succ, Finset.sum_range_zero]
    have e : ((3 : ℚ) - ((7 : Nat) : ℚ)) / 3 = -4 / 3 := by norm_num
    simp only [if_true, e, float64_neg_four_thirds, float64_sixth]
    norm_num
  have h2 : ∑ i ∈ Finset.range 7, Init.w_rounded (float64 : ℚ → ℚ) i = 1 - 1 / 2 ^ 54 := by
    have e : (((Init.lambda + Init.n_y : Int) : ℚ)) = 3 := by
      simp [Init.lambda, Init.n_y]
    simp only [Init.w_rounded, e, Finset.sum_range_succ, Finset.sum_range_zero, float64_sixth]
    simp [Init.lambda, Init.n_y]
    norm_num
  refine ⟨h1, h2, ?_, ?_⟩
  · rw [h1]; norm_num
  · rw [h2]; norm_num

/-- C9, amended.  As exact formulas the mean weights sum to 1, in `Prediction`
for every joint dimension `n` and in the radar branch of `Init`.  The
binary64 values that the code stores are the roundings of these formulas;
their sum differs from 1 by at most `2^-53 * (|3 - n| + n) / 3` in
`Prediction` and by at most `2^-53` in `Init`. -/
theorem mean_weights_sum_up_to_rounding [FloorRing α] :
    (∀ n : Nat, ∑ i ∈ Finset.range (2 * n + 1), (Prediction.w_m n i : α) = 1)
      ∧ ∑ i ∈ Finset.range 7, (Init.w i : α) = 1
      ∧ (∀ n : Nat,
          |∑ i ∈ Finset.range (2 * n + 1), Prediction.w_m_rounded (float64 : α → α) n i - 1|
            ≤ 2 ^ (-53 : Int) * ((|3 - (n : α)| + (n : α)) / 3))
      ∧ |∑ i ∈ Finset.range 7, Init.w_rounded (float64 : α → α) i - 1| ≤ 2 ^ (-53 : Int) := by
  have hex := @mean_weights_sum_to_one α _
  refine ⟨hex.1, hex.2.2.2.1, ?_, ?_⟩
  · intro n
    have hsum : ∑ i ∈ Finset.range (2 * n + 1), Prediction.w_m_rounded (float64 : α → α) n i
        = float64 ((3 - (n : α)) / 3) + (2 * (n : α)) * float64 ((0.5 : α) / 3) := by
      rw [Finset.sum_range_succ']
      have h1 : ∀ i ∈ Finset.range (2 * n),
          Prediction.w_m_rounded (float64 : α → α) n (i + 1) = float64 ((0.5 : α) / 3) := by
        intro i _
        simp [Prediction.w_m_rounded_float64]
      rw [Finset.sum_congr rfl h1]
      simp only [Finset.sum_const, Finset.card_range, nsmul_eq_mul,
        Prediction.w_m_rounded_float64, if_true]
      push_cast
      ring
    have ha := float64_abs_sub_le ((3 - (n : α)) / 3)
    have hb := float64_abs_sub_le ((0.5 : α) / 3)
    have hb2 : |((0.5 : α) / 3)| = 1 / 6 := by rw [abs_of_pos (by norm_num)]; norm_num
    have ha2 : |(3 - (n : α)) / 3| = |3 - (n : α)| / 3 := by
      rw [abs_div, abs_of_pos (by norm_num : (0 : α) < 3)]
    rw [hb2] at hb
    rw [ha2] at ha
    have hn : (0 : α) ≤ (n : α) := Nat.cast_nonneg n
    have e : float64 ((3 - (n : α)) / 3) + (2 * (n : α)) * float64 ((0.5 : α) / 3) - 1
        = (float64 ((3 - (n : α)) / 3) - (3 - (n : α)) / 3)
          + (2 * (n : α)) * (float64 ((0.5 : α) / 3) - (0.5 : α) / 3) := by
      norm_num
      ring
    rw [hsum, e]
    have hu : (0 : α) < 2 ^ (-53 : Int) := by positivity
    calc |(float64 ((3 - (n : α)) / 3) - (3 - (n : α)) / 3)
            + (2 * (n : α)) * (float64 ((0.5 : α) / 3) - (0.5 : α) / 3)|
        ≤ |float64 ((3 - (n : α)) / 3) - (3 - (n : α)) / 3|
            + |(2 * (n : α)) * (float64 ((0.5 : α) / 3) - (0.5 : α) / 3)| := abs_add _ _
      _ = |float64 ((3 - (n : α)) / 3) - (3 - (n : α)) / 3|
            + (2 * (n : α)) * |float64 ((0.5 : α) / 3) - (0.5 : α) / 3| := by
          rw [abs_mul, abs_of_nonneg (by positivity : (0 : α) ≤ 2 * (n : α))]
      _ ≤ 2 ^ (-53 : Int) * (|3 - (n : α)| / 3) + (2 * (n : α)) * (2 ^ (-53 : Int) * (1 / 6)) := by
          apply add_le_add ha
          exact mul_le_mul_of_nonneg_left hb (by positivity)
      _ = 2 ^ (-53 : Int) * ((|3 - (n : α)| + (n : α)) / 3) := by ring
  · have e : (((Init.lambda + Init.n_y : Int) : α)) = 3 := by
      simp [Init.lambda, Init.n_y]
    have hsum : ∑ i ∈ Finset.range 7, Init.w_rounded (float64 : α → α) i
        = 6 * float64 ((0.5 : α) / 3) := by
      simp only [Init.w_rounded, e, Finset.sum_range_succ, Finset.sum_range_zero]
      simp [Init.lambda, Init.n_y]
      ring
    have hb := float64_abs_sub_le ((0.5 : α) / 3)
    have hb2 : |((0.5 : α) / 3)| = 1 / 6 := by rw [abs_of_pos (by norm_num)]; norm_num
    rw [hb2] at hb
    have e2 : 6 * float64 ((0.5 : α) / 3) - 1 = 6 * (float64 ((0.5 : α) / 3) - (0.5 : α) / 3) := by
      norm_num
      ring
    rw [hsum, e2, abs_mul, abs_of_pos (by norm_num : (0 : α) < 6)]
    calc 6 * |float64 ((0.5 : α) / 3) - (0.5 : α) / 3|
        ≤ 6 * (2 ^ (-53 : Int) * (1 / 6)) := mul_le_mul_of_nonneg_left hb (by norm_num)
      _ = 2 ^ (-53 : Int) := by ring

/-! ## The motion model in binary64 -/

/-- The number 1 is a `double`. -/
theorem float64_one [FloorRing α] : float64 (1 : α) = 1 := by
  have h : float64 (((1 : Int) : α) * 2 ^ (0 : Int)) = ((1 : Int) : α) * 2 ^ (0 : Int) :=
    float64_representable 1 0 (by norm_num) (by norm_num)
  simpa using h

/-- The number `2^-60` is a `double`. -/
theorem float64_two_pow_neg_sixty [FloorRing α] : float64 ((1 : α) / 2 ^ 60) = 1 / 2 ^ 60 := by
  have h : float64 (((1 : Int) : α) * 2 ^ (-60 : Int)) = ((1 : Int) : α) * 2 ^ (-60 : Int) :=
    float64_representable 1 (-60) (by norm_num) (by norm_num)
  have e : ((1 : Int) : α) * 2 ^ (-60 : Int) = 1 / 2 ^ 60 := by norm_num
  rwa [e] at h

/-- The sum `1 + 2^-60` rounds to 1. -/
theorem float64_one_add_small [FloorRing α] : float64 ((1 : α) + 1 / 2 ^ 60) = 1 := by
  have h := float64_eval ((1 : α) + 1 / 2 ^ 60) 0 (2 ^ 52)
    (by rw [abs_of_pos (by positivity)]; norm_num)
    (by rw [abs_of_pos (by positivity)]; norm_num)
    (roundTiesEven_of_lt _ _ (by norm_num) (by norm_num))
  rw [h]
  norm_num

/-- Rounding a number that is not negative keeps at least half of it. -/
theorem float64_ge_half [FloorRing α] (y : α) (hy : 0 ≤ y) : y / 2 ≤ float64 y := by
  have h := float64_abs_sub_le y
  rw [abs_of_nonneg hy] at h
  have h2 := (abs_le.1 h).1
  have hu : (2 : α) ^ (-53 : Int) ≤ 1 / 2 := by
    norm_num
  have hm : 2 ^ (-53 : Int) * y ≤ 1 / 2 * y := mul_le_mul_of_nonneg_right hu hy
  generalize (2 : α) ^ (-53 : Int) * y = t at h2 hm
  linarith

/-- C10, the claim as stated fails in binary64: for `phi = 1`, `v = 1`,
`Dt = 1`, `omega = 2^-60` and a `cos`, `sin` rounded to the nearest `double`,
the sum `phi + omega*Dt` rounds to `phi`, so the curved-path assignments
return position 0 and heading 1, while the linear-path assignments return a
position of at least `1/64` and heading 1: the positions differ by more than
`|v| * |omega| * Dt^2 / 2 = 2^-61` and the headings do not differ by
`omega * Dt`. -/
theorem curved_path_rounded_far_from_linear_path :
    ((1 : ℝ) / 2 ^ 60 ≠ 0)
      ∧ ¬ (|(Prediction.curved_path_rounded float64 (fun x => float64 (Real.cos x))
              (fun x => float64 (Real.sin x)) 1 0 0 1 1 (1 / 2 ^ 60) 0 0).1
            - (Prediction.linear_path_rounded float64 (fun x => float64 (Real.cos x))
              (fun x => float64 (Real.sin x)) 1 0 0 1 1 0 0).1|
          ≤ |(1 : ℝ)| * |(1 : ℝ) / 2 ^ 60| * 1 ^ 2 / 2)
      ∧ (Prediction.curved_path_rounded float64 (fun x => float64 (Real.cos x))
            (fun x => float64 (Real.sin x)) 1 0 0 1 1 (1 / 2 ^ 60) 0 0).2.2
          - (Prediction.linear_path_rounded float64 (fun x => float64 (Real.cos x))
            (fun x => float64 (Real.sin x)) 1 0 0 1 1 0 0).2.2
        ≠ (1 : ℝ) / 2 ^ 60 * 1 := by
  have hc : (Prediction.curved_path_rounded float64 (fun x => float64 (Real.cos x))
      (fun x => float64 (Real.sin x)) 1 0 0 1 1 ((1 : ℝ) / 2 ^ 60) 0 0)
      = (0, 0, 1) := by
    simp only [Prediction.curved_path_rounded, mul_one, float64_two_pow_neg_sixty,
      float64_one_add_small, sub_self, float64_zero, mul_zero, zero_div, add_zero,
      neg_add_cancel, float64_one]
  have hl1 : (Prediction.linear_path_rounded float64 (fun x => float64 (Real.cos x))
      (fun x => float64 (Real.sin x)) 1 0 0 1 (1 : ℝ) 0 0).1
      = float64 (float64 (float64 (float64 (float64 (Real.cos 1))))) := by
    simp only [Prediction.linear_path_rounded, mul_one, one_mul, mul_zero, float64_zero,
      add_zero, zero_add]
  have hl3 : (Prediction.linear_path_rounded float64 (fun x => float64 (Real.cos x))
      (fun x => float64 (Real.sin x)) 1 0 0 1 (1 : ℝ) 0 0).2.2 = 1 := by
    simp only [Prediction.linear_path_rounded, mul_one, mul_zero, float64_zero, add_zero,
      float64_one]
  have hcos : (1 : ℝ) / 2 ≤ Real.cos 1 := by
    have := Real.one_sub_sq_div_two_le_cos (x := 1)
    norm_num at this
    linarith
  have h1 := float64_ge_half (Real.cos 1) (by linarith)
  have h2 := float64_ge_half _ (le_trans (by linarith) h1)
  have h3 := float64_ge_half _ (le_trans (by linarith) h2)
  have h4 := float64_ge_half _ (le_trans (by linarith) h3)
  have h5 := float64_ge_half _ (le_trans (by linarith) h4)
  refine ⟨by positivity, ?_, ?_⟩
  · rw [hc, hl1]
    intro h
    rw [zero_sub, abs_neg] at h
    have hpos : (0 : ℝ) ≤ float64 (float64 (float64 (float64 (float64 (Real.cos 1))))) := by
      linarith
    rw [abs_of_nonneg hpos, abs_of_pos (by norm_num : (0 : ℝ) < 1),
      abs_of_pos (by positivity : (0 : ℝ) < 1 / 2 ^ 60)] at h
    norm_num at h
    linarith
  · rw [hc, hl3]
    norm_num

/-! ## The predicted covariance in binary64 -/

/-- A number that is written `m * 2^k` with an integer `m` below `2^53` in
absolute value is a `double`. -/
theorem float64_dyadic [FloorRing α] (x : α) (m k : Int) (hx : x = (m : α) * 2 ^ k)
    (hm0 : m ≠ 0) (hm : |m| < 2 ^ 53) : float64 x = x := by
  rw [hx]
  exact float64_representable m k hm0 hm

/-- The `double` nearest to a thousandth lies between 0 and 1. -/
theorem float64_thousandth_bounds [FloorRing α] :
    (0 : α) < float64 0.001 ∧ float64 (0.001 : α) < 1 := by
  have h1 := float64_ge_half (0.001 : α) (by norm_num)
  have h2 := float64_abs_sub_le (0.001 : α)
  rw [abs_of_pos (by norm_num : (0 : α) < 0.001)] at h2
  have h3 := (abs_le.1 h2).2
  have hu : (2 : α) ^ (-53 : Int) ≤ 1 := by norm_num
  have hm : 2 ^ (-53 : Int) * (0.001 : α) ≤ 1 * 0.001 :=
    mul_le_mul_of_nonneg_right hu (by norm_num)
  generalize (2 : α) ^ (-53 : Int) * 0.001 = t at h3 hm
  constructor
  · have : (0 : α) < 0.001 / 2 := by norm_num
    linarith
  · have : (0.001 : α) < 1 / 2 := by norm_num
    linarith

/-- With `Dt = 0`, in the straight-line branch the two position rows of a
predicted sigma point are the rounded positions of the joint sigma point. -/
theorem Prediction.column_rounded_zero_linear [FloorRing α] (cos sin : α → α) (X : MatrixXd α)
    (i : Nat) (h : |X.coeff 4 i| < float64 0.001) :
    Prediction.column_rounded float64 cos sin 0 X i 0 = float64 (float64 (X.coeff 0 i))
      ∧ Prediction.column_rounded float64 cos sin 0 X i 1
        = float64 (float64 (X.coeff 1 i)) := by
  simp only [Prediction.column_rounded, if_pos h, Prediction.linear_path_rounded, mul_zero,
    zero_mul, float64_zero, add_zero]
  exact ⟨rfl, rfl⟩

/-- With `Dt = 0` and speed 0, in the curved-path branch the two position rows
of a predicted sigma point are the rounded positions of the joint sigma
point. -/
theorem Prediction.column_rounded_zero_curved [FloorRing α] (cos sin : α → α) (X : MatrixXd α)
    (i : Nat) (h : ¬ |X.coeff 4 i| < float64 0.001) (hv : X.coeff 2 i = 0) :
    Prediction.column_rounded float64 cos sin 0 X i 0 = float64 (float64 (X.coeff 0 i))
      ∧ Prediction.column_rounded float64 cos sin 0 X i 1
        = float64 (float64 (X.coeff 1 i)) := by
  simp only [Prediction.column_rounded, if_neg h, Prediction.curved_path_rounded, hv, mul_zero,
    zero_mul, float64_zero, add_zero, zero_div]
  exact ⟨rfl, rfl⟩

/-- The position rows of the predicted sigma points of the correlated
example, for `Dt = 0`: they are those of the joint sigma points. -/
theorem correlated_Xsig_pred [FloorRing α] (cos sin : α → α) (old : Fin 5 → Nat → α)
    (i : Nat) (hi : i < 15) :
    Prediction.Xsig_pred_rounded float64 cos sin 0 correlatedJoint old 0 i
        = (if i = 1 then 0.375 else if i = 8 then -0.375 else 0)
      ∧ Prediction.Xsig_pred_rounded float64 cos sin 0 correlatedJoint old 1 i
        = (if i = 1 then 0.875 else if i = 8 then -0.875 else if i = 2 then 0.875
            else if i = 9 then -0.875 else 0) := by
  have hc : (correlatedJoint : MatrixXd α).cols = 15 := rfl
  have hb := @float64_thousandth_bounds α _ _
  have h375 : float64 (0.375 : α) = 0.375 :=
    float64_dyadic _ 3 (-3) (by norm_num) (by norm_num) (by norm_num)
  have h875 : float64 (0.875 : α) = 0.875 :=
    float64_dyadic _ 7 (-3) (by norm_num) (by norm_num) (by norm_num)
  have h375n : float64 (-0.375 : α) = -0.375 :=
    float64_dyadic _ (-3) (-3) (by norm_num) (by norm_num) (by norm_num)
  have h875n : float64 (-0.875 : α) = -0.875 :=
    float64_dyadic _ (-7) (-3) (by norm_num) (by norm_num) (by norm_num)
  have key : Prediction.column_rounded float64 cos sin 0 correlatedJoint i 0
        = float64 (float64 ((correlatedJoint : MatrixXd α).coeff 0 i))
      ∧ Prediction.column_rounded float64 cos sin 0 correlatedJoint i 1
        = float64 (float64 ((correlatedJoint : MatrixXd α).coeff 1 i)) := by
    by_cases h : |(correlatedJoint : MatrixXd α).coeff 4 i| < float64 0.001
    · exact Prediction.column_rounded_zero_linear cos sin _ i h
    · apply Prediction.column_rounded_zero_curved cos sin _ i h
      by_contra hv
      apply h
      have h4 : (correlatedJoint : MatrixXd α).coeff 4 i = 0 := by
        interval_cases i <;> simp [correlatedJoint] at hv ⊢
      rw [h4, abs_zero]
      exact hb.1
  simp only [Prediction.Xsig_pred_rounded, hc, if_pos hi, key]
  interval_cases i <;>
    simp [correlatedJoint, float64_zero, h375, h875, h375n, h875n]

/-- A step of the accumulation loop. -/
theorem accumulate_succ_eq (fl : α → α) (f : Nat → α) (n : Nat) (v t w : α)
    (ha : accumulate fl f n = v) (ht : f n = t) (hs : fl (v + t) = w) :
    accumulate fl f (n + 1) = w := by
  show fl (accumulate fl f n + f n) = w
  rw [ha, ht, hs]

/-- Steps of the accumulation loop whose terms are 0 leave an accumulator
that is a `double` as it is. -/
theorem accumulate_const_of_zero (fl : α → α) (f : Nat → α) (v : α) (n m : Nat) (hnm : n ≤ m)
    (ha : accumulate fl f n = v) (hv : fl v = v)
    (hz : ∀ k, n ≤ k → k < m → f k = 0) : accumulate fl f m = v := by
  induction m with
  | zero =>
    have : n = 0 := by omega
    rw [← this]
    exact ha
  | succ m ih =>
    rcases Nat.lt_or_ge m n with hlt | hge
    · have : n = m + 1 := by omega
      rw [← this]
      exact ha
    · have h1 := ih hge (fun k hk1 hk2 => hz k hk1 (by omega))
      exact accumulate_succ_eq fl f m v 0 v h1 (hz m hge (by omega)) (by rw [add_zero, hv])

/-- The weights of `Prediction` for seven rows, other than the first, as
stored: the `double` nearest to one sixth. -/
theorem Prediction.weights_rounded_seven [FloorRing α] (kappa beta : α) (i : Nat) (hi : 1 ≤ i) :
    Prediction.w_m_rounded (float64 : α → α) 7 i = 6004799503160661 / 36028797018963968
      ∧ Prediction.w_c_rounded (float64 : α → α) kappa beta 7 i
        = 6004799503160661 / 36028797018963968 := by
  have h0 : i ≠ 0 := by omega
  have e : (Prediction.lambda 7 : α) + ((7 : Nat) : α) = 3 := Prediction.lambda_add 7
  have h6 : float64 ((0.5 : α) / 3) = 6004799503160661 / 36028797018963968 := by
    rw [float64_sixth]
    norm_num
  simp only [Prediction.w_m_rounded, Prediction.w_c_rounded, if_neg h0, e, float64_three, h6,
    and_self]

/-- The predicted position of the correlated example, every operation
rounded: the two accumulations of line 311 return 0. -/
theorem correlated_x_pred [FloorRing α] (cos sin : α → α) (old : Fin 5 → Nat → α) :
    Prediction.x_pred_rounded float64 correlatedJoint
        (Prediction.Xsig_pred_rounded float64 cos sin 0 correlatedJoint old) 0 = 0
      ∧ Prediction.x_pred_rounded float64 correlatedJoint
        (Prediction.Xsig_pred_rounded float64 cos sin 0 correlatedJoint old) 1 = 0 := by
  have hX := correlated_Xsig_pred cos sin old
  have hW := fun k hk => (Prediction.weights_rounded_seven (0 : α) 0 k hk).1
  have p1 : float64 ((6004799503160661 / 36028797018963968 : α) * 0.375) = (1 / 16 : α) := by
    have e : ((6004799503160661 / 36028797018963968 : α) * 0.375) = (18014398509481983 / 288230376151711744 : α) := by norm_num
    rw [e]
    have h := float64_eval (18014398509481983 / 288230376151711744 : α) (-5) (9007199254740991 + 1)
      (by rw [abs_of_pos (by norm_num)]; norm_num)
      (by rw [abs_of_pos (by norm_num)]; norm_num)
      (roundTiesEven_of_tie_odd _ (9007199254740991) (by norm_num) (by norm_num))
    rw [h]
    norm_num
  have p2 : float64 ((6004799503160661 / 36028797018963968 : α) * -0.375) = (-1 / 16 : α) := by
    have e : ((6004799503160661 / 36028797018963968 : α) * -0.375) = (-18014398509481983 / 288230376151711744 : α) := by norm_num
    rw [e]
    have h := float64_eval (-18014398509481983 / 288230376151711744 : α) (-5) (-9007199254740992)
      (by rw [abs_of_neg (by norm_num)]; norm_num)
      (by rw [abs_of_neg (by norm_num)]; norm_num)
      (roundTiesEven_of_tie_even _ (-9007199254740992) (by norm_num) (by norm_num))
    rw [h]
    norm_num
  have p3 : float64 ((6004799503160661 / 36028797018963968 : α) * 0.875) = (2627099782632789 / 18014398509481984 : α) := by
    have e : ((6004799503160661 / 36028797018963968 : α) * 0.875) = (42033596522124627 / 288230376151711744 : α) := by norm_num
    rw [e]
    have h := float64_eval (42033596522124627 / 288230376151711744 : α) (-3) (5254199565265578)
      (by rw [abs_of_pos (by norm_num)]; norm_num)
      (by rw [abs_of_pos (by norm_num)]; norm_num)
      (roundTiesEven_of_lt _ (5254199565265578) (by norm_num) (by norm_num))
    rw [h]
    norm_num
  have p4 : float64 ((6004799503160661 / 36028797018963968 : α) * -0.875) = (-2627099782632789 / 18014398509481984 : α) := by
    have e : ((6004799503160661 / 36028797018963968 : α) * -0.875) = (-42033596522124627 / 288230376151711744 : α) := by norm_num
    rw [e]
    have h := float64_eval (-42033596522124627 / 288230376151711744 : α) (-3) (-5254199565265579 + 1)
      (by rw [abs_of_neg (by norm_num)]; norm_num)
      (by rw [abs_of_neg (by norm_num)]; norm_num)
      (roundTiesEven_of_gt _ (-5254199565265579) (by norm_num) (by norm_num))
    rw [h]
    norm_num
  have s1 : float64 ((0 : α) + (1 / 16 : α)) = (1 / 16 : α) := by
    have e : ((0 : α) + (1 / 16 : α)) = (1 / 16 : α) := by norm_num
    rw [e]
    have h := float64_eval (1 / 16 : α) (-4) (4503599627370496)
      (by rw [abs_of_pos (by norm_num)]; norm_num)
      (by rw [abs_of_pos (by norm_num)]; norm_num)
      (roundTiesEven_of_lt _ (4503599627370496) (by norm_num) (by norm_num))
    rw [h]
    norm_num
  have s2 : float64 ((1 / 16 : α) + (-1 / 16 : α)) = (0 : α) := by
    have e : ((1 / 16 : α) + (-1 / 16 : α)) = (0 : α) := by norm_num
    rw [e]
    exact float64_zero
  have s3 : float64 ((0 : α) + (2627099782632789 / 18014398509481984 : α)) = (2627099782632789 / 18014398509481984 : α) := by
    have e : ((0 : α) + (2627099782632789 / 18014398509481984 : α)) = (2627099782632789 / 18014398509481984 : α) := by norm_num
    rw [e]
    have h := float64_eval (2627099782632789 / 18014398509481984 : α) (-3) (5254199565265578)
      (by rw [abs_of_pos (by norm_num)]; norm_num)
      (by rw [abs_of_pos (by norm_num)]; norm_num)
      (roundTiesEven_of_lt _ (5254199565265578) (by norm_num) (by norm_num))
    rw [h]
    norm_num
  have s4 : float64 ((2627099782632789 / 18014398509481984 : α) + (2627099782632789 / 18014398509481984 : α)) = (2627099782632789 / 9007199254740992 : α) := by
    have e : ((2627099782632789 / 18014398509481984 : α) + (2627099782632789 / 18014398509481984 : α)) = (2627099782632789 / 9007199254740992 : α) := by norm_num
    rw [e]
    have h := float64_eval (2627099782632789 / 9007199254740992 : α) (-2) (5254199565265578)
      (by rw [abs_of_pos (by norm_num)]; norm_num)
      (by rw [abs_of_pos (by norm_num)]; norm_num)
      (roundTiesEven_of_lt _ (5254199565265578) (by norm_num) (by norm_num))
    rw [h]
    norm_num
  have s5 : float64 ((2627099782632789 / 9007199254740992 : α) + (-2627099782632789 / 18014398509481984 : α)) = (2627099782632789 / 18014398509481984 : α) := by
    have e : ((2627099782632789 / 9007199254740992 : α) + (-2627099782632789 / 18014398509481984 : α)) = (2627099782632789 / 18014398509481984 : α) := by norm_num
    rw [e]
    have h := float64_eval (2627099782632789 / 18014398509481984 : α) (-3) (5254199565265578)
      (by rw [abs_of_pos (by norm_num)]; norm_num)
      (by rw [abs_of_pos (by norm_num)]; norm_num)
      (roundTiesEven_of_lt _ (5254199565265578) (by norm_num) (by norm_num))
    rw [h]
    norm_num
  have s6 : float64 ((2627099782632789 / 18014398509481984 : α) + (-2627099782632789 / 18014398509481984 : α)) = (0 : α) := by
    have e : ((2627099782632789 / 18014398509481984 : α) + (-2627099782632789 / 18014398509481984 : α)) = (0 : α) := by norm_num
    rw [e]
    exact float64_zero
  have v1 : float64 ((1 / 16 : α)) = (1 / 16 : α) := by
    have e : ((1 / 16 : α)) = (1 / 16 : α) := by norm_num
    rw [e]
    have h := float64_eval (1 / 16 : α) (-4) (4503599627370496)
      (by rw [abs_of_pos (by norm_num)]; norm_num)
      (by rw [abs_of_pos (by norm_num)]; norm_num)
      (roundTiesEven_of_lt _ (4503599627370496) (by norm_num) (by norm_num))
    rw [h]
    norm_num
  have v2 : float64 ((2627099782632789 / 9007199254740992 : α)) = (2627099782632789 / 9007199254740992 : α) := by
    have e : ((2627099782632789 / 9007199254740992 : α)) = (2627099782632789 / 9007199254740992 : α) := by norm_num
    rw [e]
    have h := float64_eval (2627099782632789 / 9007199254740992 : α) (-2) (5254199565265578)
      (by rw [abs_of_pos (by norm_num)]; norm_num)
      (by rw [abs_of_pos (by norm_num)]; norm_num)
      (roundTiesEven_of_lt _ (5254199565265578) (by norm_num) (by norm_num))
    rw [h]
    norm_num
  constructor
  · show accumulate float64
        (fun i => float64 (Prediction.w_m_rounded float64 7 i * Prediction.Xsig_pred_rounded float64 cos sin 0 correlatedJoint old 0 i)) 15 = 0
    have hz : ∀ k, k < 15 → k ≠ 1 → k ≠ 8 →
        (fun i => float64 (Prediction.w_m_rounded float64 7 i * Prediction.Xsig_pred_rounded float64 cos sin 0 correlatedJoint old 0 i)) k = 0 := by
      intro k hk h1 h8
      show float64 (Prediction.w_m_rounded float64 7 k * Prediction.Xsig_pred_rounded float64 cos sin 0 correlatedJoint old 0 k) = 0
      rw [(hX k hk).1, if_neg h1, if_neg h8, mul_zero]
      exact float64_zero
    have t1 : (fun i => float64 (Prediction.w_m_rounded float64 7 i * Prediction.Xsig_pred_rounded float64 cos sin 0 correlatedJoint old 0 i)) 1
        = (1 / 16 : α) := by
      show float64 (Prediction.w_m_rounded float64 7 1 * Prediction.Xsig_pred_rounded float64 cos sin 0 correlatedJoint old 0 1) = _
      rw [(hX 1 (by norm_num)).1, if_pos rfl, hW 1 (by norm_num)]
      exact p1
    have t8 : (fun i => float64 (Prediction.w_m_rounded float64 7 i * Prediction.Xsig_pred_rounded float64 cos sin 0 correlatedJoint old 0 i)) 8
        = (-1 / 16 : α) := by
      show float64 (Prediction.w_m_rounded float64 7 8 * Prediction.Xsig_pred_rounded float64 cos sin 0 correlatedJoint old 0 8) = _
      rw [(hX 8 (by norm_num)).1, if_neg (by norm_num), if_pos rfl, hW 8 (by norm_num)]
      exact p2
    have a1 := accumulate_const_of_zero float64 _ 0 0 1 (by norm_num) rfl float64_zero
      (fun k _ hk => hz k (by omega) (by omega) (by omega))
    have a2 := accumulate_succ_eq float64 _ 1 _ _ _ a1 t1 s1
    have a8 := accumulate_const_of_zero float64 _ _ 2 8 (by norm_num) a2 v1
      (fun k _ hk => hz k (by omega) (by omega) (by omega))
    have a9 := accumulate_succ_eq float64 _ 8 _ _ _ a8 t8 s2
    exact accumulate_const_of_zero float64 _ _ 9 15 (by norm_num) a9 float64_zero
      (fun k _ hk => hz k (by omega) (by omega) (by omega))
  · show accumulate float64
        (fun i => float64 (Prediction.w_m_rounded float64 7 i * Prediction.Xsig_pred_rounded float64 cos sin 0 correlatedJoint old 1 i)) 15 = 0
    have hz : ∀ k, k < 15 → k ≠ 1 → k ≠ 8 → k ≠ 2 → k ≠ 9 →
        (fun i => float64 (Prediction.w_m_rounded float64 7 i * Prediction.Xsig_pred_rounded float64 cos sin 0 correlatedJoint old 1 i)) k = 0 := by
      intro k hk h1 h8 h2 h9
      show float64 (Prediction.w_m_rounded float64 7 k * Prediction.Xsig_pred_rounded float64 cos sin 0 correlatedJoint old 1 k) = 0
      rw [(hX k hk).2, if_neg h1, if_neg h8, if_neg h2, if_neg h9, mul_zero]
      exact float64_zero
    have t1 : (fun i => float64 (Prediction.w_m_rounded float64 7 i * Prediction.Xsig_pred_rounded float64 cos sin 0 correlatedJoint old 1 i)) 1
        = (2627099782632789 / 18014398509481984 : α) := by
      show float64 (Prediction.w_m_rounded float64 7 1 * Prediction.Xsig_pred_rounded float64 cos sin 0 correlatedJoint old 1 1) = _
      rw [(hX 1 (by norm_num)).2, if_pos rfl, hW 1 (by norm_num)]
      exact p3
    have t2 : (fun i => float64 (Prediction.w_m_rounded float64 7 i * Prediction.Xsig_pred_rounded float64 cos sin 0 correlatedJoint old 1 i)) 2
        = (2627099782632789 / 18014398509481984 : α) := by
      show float64 (Prediction.w_m_rounded float64 7 2 * Prediction.Xsig_pred_rounded float64 cos sin 0 correlatedJoint old 1 2) = _
      rw [(hX 2 (by norm_num)).2, if_neg (by norm_num), if_neg (by norm_num), if_pos rfl,
        hW 2 (by norm_num)]
      exact p3
    have t8 : (fun i => float64 (Prediction.w_m_rounded float64 7 i * Prediction.Xsig_pred_rounded float64 cos sin 0 correlatedJoint old 1 i)) 8
        = (-2627099782632789 / 18014398509481984 : α) := by
      show float64 (Prediction.w_m_rounded float64 7 8 * Prediction.Xsig_pred_rounded float64 cos sin 0 correlatedJoint old 1 8) = _
      rw [(hX 8 (by norm_num)).2, if_neg (by norm_num), if_pos rfl, hW 8 (by norm_num)]
      exact p4
    have t9 : (fun i => float64 (Prediction.w_m_rounded float64 7 i * Prediction.Xsig_pred_rounded float64 cos sin 0 correlatedJoint old 1 i)) 9
        = (-2627099782632789 / 18014398509481984 : α) := by
      show float64 (Prediction.w_m_rounded float64 7 9 * Prediction.Xsig_pred_rounded float64 cos sin 0 correlatedJoint old 1 9) = _
      rw [(hX 9 (by norm_num)).2, if_neg (by norm_num), if_neg (by norm_num),
        if_neg (by norm_num), if_pos rfl, hW 9 (by norm_num)]
      exact p4
    have a1 := accumulate_const_of_zero float64 _ 0 0 1 (by norm_num) rfl float64_zero
      (fun k _ hk => hz k (by omega) (by omega) (by omega) (by omega) (by omega))
    have a2 := accumulate_succ_eq float64 _ 1 _ _ _ a1 t1 s3
    have a3 := accumulate_succ_eq float64 _ 2 _ _ _ a2 t2 s4
    have a8 := accumulate_const_of_zero float64 _ _ 3 8 (by norm_num) a3 v2
      (fun k _ hk => hz k (by omega) (by omega) (by omega) (by omega) (by omega))
    have a9 := accumulate_succ_eq float64 _ 8 _ _ _ a8 t8 s5
    have a10 := accumulate_succ_eq float64 _ 9 _ _ _ a9 t9 s6
    exact accumulate_const_of_zero float64 _ _ 10 15 (by norm_num) a10 float64_zero
      (fun k _ hk => hz k (by omega) (by omega) (by omega) (by omega) (by omega))

/-- The position covariance of the correlated example, every operation
rounded: the accumulations of line 318 for the entries (0,1) and (1,0) return
two different numbers. -/
theorem correlated_Sigma_pred [FloorRing α] (cos sin : α → α) (old : Fin 5 → Nat → α)
    (kappa beta : α) (xp : Fin 5 → α) (hx0 : xp 0 = 0) (hx1 : xp 1 = 0) :
    Prediction.Sigma_pred_rounded float64 kappa beta correlatedJoint
        (Prediction.Xsig_pred_rounded float64 cos sin 0 correlatedJoint old) xp 0 1 = (7 / 64 : α)
      ∧ Prediction.Sigma_pred_rounded float64 kappa beta correlatedJoint
        (Prediction.Xsig_pred_rounded float64 cos sin 0 correlatedJoint old) xp 1 0 = (7881299347898367 / 72057594037927936 : α) := by
  have hX := correlated_Xsig_pred cos sin old
  have hW := fun k hk => (Prediction.weights_rounded_seven kappa beta k hk).2
  have r1 : float64 (0.375 : α) = 0.375 :=
    float64_dyadic _ 3 (-3) (by norm_num) (by norm_num) (by norm_num)
  have r2 : float64 (-0.375 : α) = -0.375 :=
    float64_dyadic _ (-3) (-3) (by norm_num) (by norm_num) (by norm_num)
  have r3 : float64 (0.875 : α) = 0.875 :=
    float64_dyadic _ 7 (-3) (by norm_num) (by norm_num) (by norm_num)
  have r4 : float64 (-0.875 : α) = -0.875 :=
    float64_dyadic _ (-7) (-3) (by norm_num) (by norm_num) (by norm_num)
  have p1 : float64 ((6004799503160661 / 36028797018963968 : α) * 0.375) = (1 / 16 : α) := by
    have e : ((6004799503160661 / 36028797018963968 : α) * 0.375) = (18014398509481983 / 288230376151711744 : α) := by norm_num
    rw [e]
    have h := float64_eval (18014398509481983 / 288230376151711744 : α) (-5) (9007199254740991 + 1)
      (by rw [abs_of_pos (by norm_num)]; norm_num)
      (by rw [abs_of_pos (by norm_num)]; norm_num)
      (roundTiesEven_of_tie_odd _ (9007199254740991) (by norm_num) (by norm_num))
    rw [h]
    norm_num
  have p2 : float64 ((6004799503160661 / 36028797018963968 : α) * -0.375) = (-1 / 16 : α) := by
    have e : ((6004799503160661 / 36028797018963968 : α) * -0.375) = (-18014398509481983 / 288230376151711744 : α) := by norm_num
    rw [e]
    have h := float64_eval (-18014398509481983 / 288230376151711744 : α) (-5) (-9007199254740992)
      (by rw [abs_of_neg (by norm_num)]; norm_num)
      (by rw [abs_of_neg (by norm_num)]; norm_num)
      (roundTiesEven_of_tie_even _ (-9007199254740992) (by norm_num) (by norm_num))
    rw [h]
    norm_num
  have p3 : float64 ((6004799503160661 / 36028797018963968 : α) * 0.875) = (2627099782632789 / 18014398509481984 : α) := by
    have e : ((6004799503160661 / 36028797018963968 : α) * 0.875) = (42033596522124627 / 288230376151711744 : α) := by norm_num
    rw [e]
    have h := float64_eval (42033596522124627 / 288230376151711744 : α) (-3) (5254199565265578)
      (by rw [abs_of_pos (by norm_num)]; norm_num)
      (by rw [abs_of_pos (by norm_num)]; norm_num)
      (roundTiesEven_of_lt _ (5254199565265578) (by norm_num) (by norm_num))
    rw [h]
    norm_num
  have p4 : float64 ((6004799503160661 / 36028797018963968 : α) * -0.875) = (-2627099782632789 / 18014398509481984 : α) := by
    have e : ((6004799503160661 / 36028797018963968 : α) * -0.875) = (-42033596522124627 / 288230376151711744 : α) := by norm_num
    rw [e]
    have h := float64_eval (-42033596522124627 / 288230376151711744 : α) (-3) (-5254199565265579 + 1)
      (by rw [abs_of_neg (by norm_num)]; norm_num)
      (by rw [abs_of_neg (by norm_num)]; norm_num)
      (roundTiesEven_of_gt _ (-5254199565265579) (by norm_num) (by norm_num))
    rw [h]
    norm_num
  have q1 : float64 ((1 / 16 : α) * 0.875) = (7 / 128 : α) := by
    have e : ((1 / 16 : α) * 0.875) = (7 / 128 : α) := by norm_num
    rw [e]
    have h := float64_eval (7 / 128 : α) (-5) (7881299347898368)
      (by rw [abs_of_pos (by norm_num)]; norm_num)
      (by rw [abs_of_pos (by norm_num)]; norm_num)
      (roundTiesEven_of_lt _ (7881299347898368) (by norm_num) (by norm_num))
    rw [h]
    norm_num
  have q2 : float64 ((-1 / 16 : α) * -0.875) = (7 / 128 : α) := by
    have e : ((-1 / 16 : α) * -0.875) = (7 / 128 : α) := by norm_num
    rw [e]
    have h := float64_eval (7 / 128 : α) (-5) (7881299347898368)
      (by rw [abs_of_pos (by norm_num)]; norm_num)
      (by rw [abs_of_pos (by norm_num)]; norm_num)
      (roundTiesEven_of_lt _ (7881299347898368) (by norm_num) (by norm_num))
    rw [h]
    norm_num
  have q3 : float64 ((2627099782632789 / 18014398509481984 : α) * 0.375) = (7881299347898367 / 144115188075855872 : α) := by
    have e : ((2627099782632789 / 18014398509481984 : α) * 0.375) = (7881299347898367 / 144115188075855872 : α) := by norm_num
    rw [e]
    have h := float64_eval (7881299347898367 / 144115188075855872 : α) (-5) (7881299347898367)
      (by rw [abs_of_pos (by norm_num)]; norm_num)
      (by rw [abs_of_pos (by norm_num)]; norm_num)
      (roundTiesEven_of_lt _ (7881299347898367) (by norm_num) (by norm_num))
    rw [h]
    norm_num
  have q4 : float64 ((-2627099782632789 / 18014398509481984 : α) * -0.375) = (7881299347898367 / 144115188075855872 : α) := by
    have e : ((-2627099782632789 / 18014398509481984 : α) * -0.375) = (7881299347898367 / 144115188075855872 : α) := by norm_num
    rw [e]
    have h := float64_eval (7881299347898367 / 144115188075855872 : α) (-5) (7881299347898367)
      (by rw [abs_of_pos (by norm_num)]; norm_num)
      (by rw [abs_of_pos (by norm_num)]; norm_num)
      (roundTiesEven_of_lt _ (7881299347898367) (by norm_num) (by norm_num))
    rw [h]
    norm_num
  have s1 : float64 ((0 : α) + (7 / 128 : α)) = (7 / 128 : α) := by
    have e : ((0 : α) + (7 / 128 : α)) = (7 / 128 : α) := by norm_num
    rw [e]
    have h := float64_eval (7 / 128 : α) (-5) (7881299347898368)
      (by rw [abs_of_pos (by norm_num)]; norm_num)
      (by rw [abs_of_pos (by norm_num)]; norm_num)
      (roundTiesEven_of_lt _ (7881299347898368) (by norm_num) (by norm_num))
    rw [h]
    norm_num
  have s2 : float64 ((7 / 128 : α) + (7 / 128 : α)) = (7 / 64 : α) := by
    have e : ((7 / 128 : α) + (7 / 128 : α)) = (7 / 64 : α) := by norm_num
    rw [e]
    have h := float64_eval (7 / 64 : α) (-4) (7881299347898368)
      (by rw [abs_of_pos (by norm_num)]; norm_num)
      (by rw [abs_of_pos (by norm_num)]; norm_num)
      (roundTiesEven_of_lt _ (7881299347898368) (by norm_num) (by norm_num))
    rw [h]
    norm_num
  have s3 : float64 ((0 : α) + (7881299347898367 / 144115188075855872 : α)) = (7881299347898367 / 144115188075855872 : α) := by
    have e : ((0 : α) + (7881299347898367 / 144115188075855872 : α)) = (7881299347898367 / 144115188075855872 : α) := by norm_num
    rw [e]
    have h := float64_eval (7881299347898367 / 144115188075855872 : α) (-5) (7881299347898367)
      (by rw [abs_of_pos (by norm_num)]; norm_num)
      (by rw [abs_of_pos (by norm_num)]; norm_num)
      (roundTiesEven_of_lt _ (7881299347898367) (by norm_num) (by norm_num))
    rw [h]
    norm_num
  have s4 : float64 ((7881299347898367 / 144115188075855872 : α) + (7881299347898367 / 144115188075855872 : α)) = (7881299347898367 / 72057594037927936 : α) := by
    have e : ((7881299347898367 / 144115188075855872 : α) + (7881299347898367 / 144115188075855872 : α)) = (7881299347898367 / 72057594037927936 : α) := by norm_num
    rw [e]
    have h := float64_eval (7881299347898367 / 72057594037927936 : α) (-4) (7881299347898367)
      (by rw [abs_of_pos (by norm_num)]; norm_num)
      (by rw [abs_of_pos (by norm_num)]; norm_num)
      (roundTiesEven_of_lt _ (7881299347898367) (by norm_num) (by norm_num))
    rw [h]
    norm_num
  have v1 : float64 ((7 / 128 : α)) = (7 / 128 : α) := by
    have e : ((7 / 128 : α)) = (7 / 128 : α) := by norm_num
    rw [e]
    have h := float64_eval (7 / 128 : α) (-5) (7881299347898368)
      (by rw [abs_of_pos (by norm_num)]; norm_num)
      (by rw [abs_of_pos (by norm_num)]; norm_num)
      (roundTiesEven_of_lt _ (7881299347898368) (by norm_num) (by norm_num))
    rw [h]
    norm_num
  have v2 : float64 ((7 / 64 : α)) = (7 / 64 : α) := by
    have e : ((7 / 64 : α)) = (7 / 64 : α) := by norm_num
    rw [e]
    have h := float64_eval (7 / 64 : α) (-4) (7881299347898368)
      (by rw [abs_of_pos (by norm_num)]; norm_num)
      (by rw [abs_of_pos (by norm_num)]; norm_num)
      (roundTiesEven_of_lt _ (7881299347898368) (by norm_num) (by norm_num))
    rw [h]
    norm_num
  have v3 : float64 ((7881299347898367 / 144115188075855872 : α)) = (7881299347898367 / 144115188075855872 : α) := by
    have e : ((7881299347898367 / 144115188075855872 : α)) = (7881299347898367 / 144115188075855872 : α) := by norm_num
    rw [e]
    have h := float64_eval (7881299347898367 / 144115188075855872 : α) (-5) (7881299347898367)
      (by rw [abs_of_pos (by norm_num)]; norm_num)
      (by rw [abs_of_pos (by norm_num)]; norm_num)
      (roundTiesEven_of_lt _ (7881299347898367) (by norm_num) (by norm_num))
    rw [h]
    norm_num
  have v4 : float64 ((7881299347898367 / 72057594037927936 : α)) = (7881299347898367 / 72057594037927936 : α) := by
    have e : ((7881299347898367 / 72057594037927936 : α)) = (7881299347898367 / 72057594037927936 : α) := by norm_num
    rw [e]
    have h := float64_eval (7881299347898367 / 72057594037927936 : α) (-4) (7881299347898367)
      (by rw [abs_of_pos (by norm_num)]; norm_num)
      (by rw [abs_of_pos (by norm_num)]; norm_num)
      (roundTiesEven_of_lt _ (7881299347898367) (by norm_num) (by norm_num))
    rw [h]
    norm_num
  constructor
  · show accumulate float64 (fun i => float64 (float64 (Prediction.w_c_rounded float64 kappa beta 7 i * float64 (Prediction.Xsig_pred_rounded float64 cos sin 0 correlatedJoint old 0 i - xp 0)) * float64 (Prediction.Xsig_pred_rounded float64 cos sin 0 correlatedJoint old 1 i - xp 1))) 15 = _
    have hz : ∀ k, k < 15 → k ≠ 1 → k ≠ 8 → (fun i => float64 (float64 (Prediction.w_c_rounded float64 kappa beta 7 i * float64 (Prediction.Xsig_pred_rounded float64 cos sin 0 correlatedJoint old 0 i - xp 0)) * float64 (Prediction.Xsig_pred_rounded float64 cos sin 0 correlatedJoint old 1 i - xp 1))) k = 0 := by
      intro k hk h1 h8
      show float64 (float64 (Prediction.w_c_rounded float64 kappa beta 7 k * float64 (Prediction.Xsig_pred_rounded float64 cos sin 0 correlatedJoint old 0 k - xp 0)) * float64 (Prediction.Xsig_pred_rounded float64 cos sin 0 correlatedJoint old 1 k - xp 1)) = 0
      rw [(hX k hk).1, if_neg h1, if_neg h8, hx0, sub_zero, float64_zero, mul_zero, float64_zero,
        zero_mul]
      exact float64_zero
    have t1 : (fun i => float64 (float64 (Prediction.w_c_rounded float64 kappa beta 7 i * float64 (Prediction.Xsig_pred_rounded float64 cos sin 0 correlatedJoint old 0 i - xp 0)) * float64 (Prediction.Xsig_pred_rounded float64 cos sin 0 correlatedJoint old 1 i - xp 1))) 1 = (7 / 128 : α) := by
      show float64 (float64 (Prediction.w_c_rounded float64 kappa beta 7 1 * float64 (Prediction.Xsig_pred_rounded float64 cos sin 0 correlatedJoint old 0 1 - xp 0)) * float64 (Prediction.Xsig_pred_rounded float64 cos sin 0 correlatedJoint old 1 1 - xp 1)) = _
      rw [(hX 1 (by norm_num)).1, (hX 1 (by norm_num)).2, if_pos rfl, if_pos rfl, hx0, hx1,
        sub_zero, sub_zero, r1, r3, hW 1 (by norm_num), p1]
      exact q1
    have t8 : (fun i => float64 (float64 (Prediction.w_c_rounded float64 kappa beta 7 i * float64 (Prediction.Xsig_pred_rounded float64 cos sin 0 correlatedJoint old 0 i - xp 0)) * float64 (Prediction.Xsig_pred_rounded float64 cos sin 0 correlatedJoint old 1 i - xp 1))) 8 = (7 / 128 : α) := by
      show float64 (float64 (Prediction.w_c_rounded float64 kappa beta 7 8 * float64 (Prediction.Xsig_pred_rounded float64 cos sin 0 correlatedJoint old 0 8 - xp 0)) * float64 (Prediction.Xsig_pred_rounded float64 cos sin 0 correlatedJoint old 1 8 - xp 1)) = _
      rw [(hX 8 (by norm_num)).1, (hX 8 (by norm_num)).2, if_neg (by norm_num), if_pos rfl,
        if_neg (by norm_num), if_pos rfl, hx0, hx1, sub_zero, sub_zero, r2, r4,
        hW 8 (by norm_num), p2]
      exact q2
    have a1 := accumulate_const_of_zero float64 _ 0 0 1 (by norm_num) rfl float64_zero
      (fun k _ hk => hz k (by omega) (by omega) (by omega))
    have a2 := accumulate_succ_eq float64 _ 1 _ _ _ a1 t1 s1
    have a8 := accumulate_const_of_zero float64 _ _ 2 8 (by norm_num) a2 v1
      (fun k _ hk => hz k (by omega) (by omega) (by omega))
    have a9 := accumulate_succ_eq float64 _ 8 _ _ _ a8 t8 s2
    exact accumulate_const_of_zero float64 _ _ 9 15 (by norm_num) a9 v2
      (fun k _ hk => hz k (by omega) (by omega) (by omega))
  · show accumulate float64 (fun i => float64 (float64 (Prediction.w_c_rounded float64 kappa beta 7 i * float64 (Prediction.Xsig_pred_rounded float64 cos sin 0 correlatedJoint old 1 i - xp 1)) * float64 (Prediction.Xsig_pred_rounded float64 cos sin 0 correlatedJoint old 0 i - xp 0))) 15 = _
    have hz : ∀ k, k < 15 → k ≠ 1 → k ≠ 8 → (fun i => float64 (float64 (Prediction.w_c_rounded float64 kappa beta 7 i * float64 (Prediction.Xsig_pred_rounded float64 cos sin 0 correlatedJoint old 1 i - xp 1)) * float64 (Prediction.Xsig_pred_rounded float64 cos sin 0 correlatedJoint old 0 i - xp 0))) k = 0 := by
      intro k hk h1 h8
      show float64 (float64 (Prediction.w_c_rounded float64 kappa beta 7 k * float64 (Prediction.Xsig_pred_rounded float64 cos sin 0 correlatedJoint old 1 k - xp 1)) * float64 (Prediction.Xsig_pred_rounded float64 cos sin 0 correlatedJoint old 0 k - xp 0)) = 0
      rw [(hX k hk).1, if_neg h1, if_neg h8, hx0, sub_zero, float64_zero, mul_zero]
      exact float64_zero
    have t1 : (fun i => float64 (float64 (Prediction.w_c_rounded float64 kappa beta 7 i * float64 (Prediction.Xsig_pred_rounded float64 cos sin 0 correlatedJoint old 1 i - xp 1)) * float64 (Prediction.Xsig_pred_rounded float64 cos sin 0 correlatedJoint old 0 i - xp 0))) 1 = (7881299347898367 / 144115188075855872 : α) := by
      show float64 (float64 (Prediction.w_c_rounded float64 kappa beta 7 1 * float64 (Prediction.Xsig_pred_rounded float64 cos sin 0 correlatedJoint old 1 1 - xp 1)) * float64 (Prediction.Xsig_pred_rounded float64 cos sin 0 correlatedJoint old 0 1 - xp 0)) = _
      rw [(hX 1 (by norm_num)).1, (hX 1 (by norm_num)).2, if_pos rfl, if_pos rfl, hx0, hx1,
        sub_zero, sub_zero, r1, r3, hW 1 (by norm_num), p3]
      exact q3
    have t8 : (fun i => float64 (float64 (Prediction.w_c_rounded float64 kappa beta 7 i * float64 (Prediction.Xsig_pred_rounded float64 cos sin 0 correlatedJoint old 1 i - xp 1)) * float64 (Prediction.Xsig_pred_rounded float64 cos sin 0 correlatedJoint old 0 i - xp 0))) 8 = (7881299347898367 / 144115188075855872 : α) := by
      show float64 (float64 (Prediction.w_c_rounded float64 kappa beta 7 8 * float64 (Prediction.Xsig_pred_rounded float64 cos sin 0 correlatedJoint old 1 8 - xp 1)) * float64 (Prediction.Xsig_pred_rounded float64 cos sin 0 correlatedJoint old 0 8 - xp 0)) = _
      rw [(hX 8 (by norm_num)).1, (hX 8 (by norm_num)).2, if_neg (by norm_num), if_pos rfl,
        if_neg (by norm_num), if_pos rfl, hx0, hx1, sub_zero, sub_zero, r2, r4,
        hW 8 (by norm_num), p4]
      exact q4
    have a1 := accumulate_const_of_zero float64 _ 0 0 1 (by norm_num) rfl float64_zero
      (fun k _ hk => hz k (by omega) (by omega) (by omega))
    have a2 := accumulate_succ_eq float64 _ 1 _ _ _ a1 t1 s3
    have a8 := accumulate_const_of_zero float64 _ _ 2 8 (by norm_num) a2 v3
      (fun k _ hk => hz k (by omega) (by omega) (by omega))
    have a9 := accumulate_succ_eq float64 _ 8 _ _ _ a8 t8 s4
    exact accumulate_const_of_zero float64 _ _ 9 15 (by norm_num) a9 v4
      (fun k _ hk => hz k (by omega) (by omega) (by omega))

/-- The accumulation loop without rounding is the sum. -/
theorem accumulate_id (f : Nat → α) (n : Nat) :
    accumulate id f n = ∑ i ∈ Finset.range n, f i := by
  induction n with
  | zero => rfl
  | succ n ih =>
    rw [Finset.sum_range_succ, ← ih]
    rfl

/-- Without rounding, `Prediction_rounded` is `Prediction`. -/
theorem Prediction_rounded_id (env : Env α) (s : UKF α) (Dt : α) :
    Prediction_rounded id env s Dt = Prediction env s Dt := by
  have hw : ∀ n i, Prediction.w_m_rounded (id : α → α) n i = Prediction.w_m n i := fun _ _ => rfl
  have hc : ∀ k b n i, Prediction.w_c_rounded (id : α → α) k b n i = Prediction.w_c k b n i :=
    fun _ _ _ _ => rfl
  have hX : ∀ X old, Prediction.Xsig_pred_rounded id env.cos env.sin Dt X old
      = Prediction.Xsig_pred env.cos env.sin Dt X old := fun _ _ => rfl
  have hx : ∀ X Xp, Prediction.x_pred_rounded (id : α → α) X Xp = Prediction.x_pred X Xp := by
    intro X Xp
    funext r
    simp only [Prediction.x_pred_rounded, Prediction.x_pred, accumulate_id, hw, id]
  have hS : ∀ X Xp xp, Prediction.Sigma_pred_rounded (id : α → α) env.kappa env.beta X Xp xp
      = Prediction.Sigma_pred env.kappa env.beta X Xp xp := by
    intro X Xp xp
    funext r c
    simp only [Prediction.Sigma_pred_rounded, Prediction.Sigma_pred, Prediction.diff,
      accumulate_id, hc, id]
  unfold Prediction_rounded Prediction
  cases env.GenerateJointSigmaPoints s.x_ s.Sigma_ s.std_a_ s.std_yawdd_ s.Xsig_joint_ with
  | error e => rfl
  | ok X => simp only [hX, hx, hS]

/-- C16, the claim as stated fails in binary64: on the correlated example with
`Dt = 0`, with every operation of `Prediction` rounded to `double`, entry
`(0, 1)` of the covariance written is `7/64` and entry `(1, 0)` is
`7/64 - 2^-56`: line 318 computes the first as `(w * d0) * d1` and the second
as `(w * d1) * d0`, and the two roundings differ. -/
theorem Prediction_rounded_Sigma_not_symmetric :
    (Prediction_rounded float64 (correlatedEnv Real.cos Real.sin float32)
        (exampleFilter (correlatedEnv Real.cos Real.sin float32) true) 0).state.Sigma_ 0 1
        = 7 / 64
      ∧ (Prediction_rounded float64 (correlatedEnv Real.cos Real.sin float32)
        (exampleFilter (correlatedEnv Real.cos Real.sin float32) true) 0).state.Sigma_ 1 0
        = 7 / 64 - 1 / 2 ^ 56
      ∧ (Prediction_rounded float64 (correlatedEnv Real.cos Real.sin float32)
        (exampleFilter (correlatedEnv Real.cos Real.sin float32) true) 0).state.Sigma_ 0 1
        ≠ (Prediction_rounded float64 (correlatedEnv Real.cos Real.sin float32)
        (exampleFilter (correlatedEnv Real.cos Real.sin float32) true) 0).state.Sigma_ 1 0 := by
  have hx := correlated_x_pred Real.cos Real.sin
    (exampleFilter (correlatedEnv Real.cos Real.sin float32) true).Xsig_pred_
  have hS := correlated_Sigma_pred Real.cos Real.sin
    (exampleFilter (correlatedEnv Real.cos Real.sin float32) true).Xsig_pred_ 0 2 _ hx.1 hx.2
  have h1 : (Prediction_rounded float64 (correlatedEnv Real.cos Real.sin float32)
      (exampleFilter (correlatedEnv Real.cos Real.sin float32) true) 0).state.Sigma_ 0 1
      = 7 / 64 := hS.1
  have h2 : (Prediction_rounded float64 (correlatedEnv Real.cos Real.sin float32)
      (exampleFilter (correlatedEnv Real.cos Real.sin float32) true) 0).state.Sigma_ 1 0
      = 7 / 64 - 1 / 2 ^ 56 := by
    refine Eq.trans hS.2 ?_
    norm_num
  refine ⟨h1, h2, ?_⟩
  rw [h1, h2]
  norm_num

end UKF
